import Mathlib

/-!
# PlotPoints

A shallow embedding of `PlotPoints.c`: the station records read by `main`, the
colour selection, the station name registry, the quote escaping and the marker
writer, followed by the properties established for them.

Conventions of the embedding.
* A `float` is a rational number, an infinity or a nan; every operation on
  numbers is exact.  The coordinates of a point are numbers.
* A `char` array is the list of its bytes (`List Char`); the terminator is the
  character with code 0.  A C string stored in such an array is the part before
  the first terminator.
* An array indexed by an `int` is a function from the index to the element.
* The output stream is the list of the strings written to it, oldest first.
* Uninitialised storage is an argument of the function that declares it.
* A store past the end of a local array ends the run: the behaviour of the
  program is undefined from there.
* The text `printf` produces for a `float` and the distance `main` obtains
  from `surfaceDistance` are arguments of the functions that use them.
-/

namespace PlotPoints

/-! ## Constants and types -/

/-- Latitude of the ECS building, `ECS_LATITUDE`. -/
def ECS_LATITUDE : ℚ := 48.46104

/-- Longitude of the ECS building, `ECS_LONGITUDE`. -/
def ECS_LONGITUDE : ℚ := -123.31153

/-- Maximum number of stations, `MAX_STATIONS`. -/
def MAX_STATIONS : Nat := 201

/-! ## Values of type `float` -/

/-- A value of type `float`: a number, an infinity or a nan.  The numbers are
the rationals and the operations on them are exact; the operations on the
infinities and on nan are those of IEEE arithmetic. -/
inductive FloatVal where
  | num (q : ℚ)
  | posInf
  | negInf
  | nan
deriving DecidableEq, Repr

namespace FloatVal

instance : Coe ℚ FloatVal := ⟨num⟩

instance (n : Nat) : OfNat FloatVal n := ⟨num n⟩

instance : OfScientific FloatVal :=
  ⟨fun mantissa exponentSign decimalExponent =>
    num (OfScientific.ofScientific mantissa exponentSign decimalExponent)⟩

instance : NatCast FloatVal := ⟨fun n => num n⟩

/-- The negation of a `float`. -/
def neg : FloatVal → FloatVal
  | num a => num (-a)
  | posInf => negInf
  | negInf => posInf
  | nan => nan

/-- The sum of two `float`s. -/
def add : FloatVal → FloatVal → FloatVal
  | num a, num b => num (a + b)
  | nan, _ => nan
  | _, nan => nan
  | posInf, negInf => nan
  | negInf, posInf => nan
  | posInf, _ => posInf
  | _, posInf => posInf
  | negInf, _ => negInf
  | _, negInf => negInf

/-- The quotient of two `float`s; a zero divisor is the positive zero. -/
def div : FloatVal → FloatVal → FloatVal
  | nan, _ => nan
  | _, nan => nan
  | num a, num b =>
    if b = 0 then (if a = 0 then nan else if 0 < a then posInf else negInf) else num (a / b)
  | num _, posInf => num 0
  | num _, negInf => num 0
  | posInf, num b => if 0 ≤ b then posInf else negInf
  | negInf, num b => if 0 ≤ b then negInf else posInf
  | posInf, _ => nan
  | negInf, _ => nan

/-- The comparison `<` of two `float`s; it fails when one of them is nan. -/
def blt : FloatVal → FloatVal → Bool
  | num a, num b => decide (a < b)
  | nan, _ => false
  | _, nan => false
  | _, negInf => false
  | negInf, _ => true
  | posInf, _ => false
  | num _, posInf => true

/-- The comparison `<=` of two `float`s; it fails when one of them is nan. -/
def ble : FloatVal → FloatVal → Bool
  | num a, num b => decide (a ≤ b)
  | nan, _ => false
  | _, nan => false
  | negInf, _ => true
  | _, posInf => true
  | posInf, _ => false
  | num _, negInf => false

instance : Neg FloatVal := ⟨neg⟩
instance : Add FloatVal := ⟨add⟩
instance : Sub FloatVal := ⟨fun a b => add a (neg b)⟩
instance : Div FloatVal := ⟨div⟩
instance : LT FloatVal := ⟨fun a b => blt a b = true⟩
instance : LE FloatVal := ⟨fun a b => ble a b = true⟩
instance (a b : FloatVal) : Decidable (a < b) := inferInstanceAs (Decidable (blt a b = true))
instance (a b : FloatVal) : Decidable (a ≤ b) := inferInstanceAs (Decidable (ble a b = true))

end FloatVal

/-- A point on the surface of the Earth, in degrees. -/
structure GeographicPoint where
  latitude : ℚ
  longitude : ℚ
deriving DecidableEq, Repr

/-- A station and its current temperature. -/
structure StationData where
  stationID : Int
  location : GeographicPoint
  temperature : FloatVal
  year : Int
  month : Int
  day : Int
  hour : Int
  minute : Int
deriving DecidableEq, Repr

def MARKER_RED : Int := 0
def MARKER_BLUE : Int := 1
def MARKER_GREEN : Int := 2
def MARKER_YELLOW : Int := 3
def MARKER_PURPLE : Int := 4

/-- The terminator of a C string. -/
def NUL : Char := Char.ofNat 0

/-- The single quote character. -/
def QUOTE : Char := Char.ofNat 39

/-- The backslash character. -/
def BACKSLASH : Char := Char.ofNat 92

/-- A marker on the map.  `markerName` is the 100 byte array and `markerText`
the 1000 byte array of the C struct. -/
structure MapMarker where
  location : GeographicPoint
  markerName : List Char
  markerText : List Char
  type : Int
deriving DecidableEq, Repr

/-! ## Colour selection in `main` -/

/-- The four `if` statements of `main` that set `mapInfo[k].type`, run in
order on a slot whose previous content is `type0`.  The first component is the
content of the slot afterwards, the second the number of stores made to it. -/
def selectColour (temperature avgTemp : FloatVal) (type0 : Int) : Int × Nat :=
  let s : Int × Nat := (type0, 0)
  let s := if temperature - avgTemp < -1 then (MARKER_BLUE, s.2 + 1) else s
  let s := if -1 ≤ temperature - avgTemp ∧ temperature - avgTemp < 0 then
    (MARKER_GREEN, s.2 + 1) else s
  let s := if 0 ≤ temperature - avgTemp ∧ temperature - avgTemp < 1 then
    (MARKER_YELLOW, s.2 + 1) else s
  let s := if 1 ≤ temperature - avgTemp then (MARKER_RED, s.2 + 1) else s
  s

/-! ## Station names -/

/-- The designated initialisers of the array `AllStationNames`, in source order. -/
def AllStationNamesInit : List (Nat × String) := [
  (1, "Ian Stewart Complex/Mt. Douglas High School"),
  (3, "Strawberry Vale Elementary School"),
  (4, "Oaklands Elementary School"),
  (5, "Cedar Hill Middle School"),
  (6, "Marigold Elementary School/Spectrum High School"),
  (7, "Campus View Elementary"),
  (8, "Victoria High School"),
  (9, "Frank Hobbs Elementary School"),
  (10, "MacAulay Elementary School"),
  (11, "James Bay Elementary School"),
  (12, "Victoria West Elementary School"),
  (13, "Shoreline Middle School"),
  (14, "Willows Elementary School"),
  (15, "Sir James Douglas Elementary School"),
  (16, "Tillicum Elementary School"),
  (17, "Eagle View Elementary School"),
  (18, "Torquay Elementary School"),
  (19, "Monterey Middle School"),
  (20, "Lake Hill Elementary School"),
  (21, "Rogers Elementary School"),
  (22, "Cloverdale Elementary School"),
  (24, "Hillcrest Elementary School"),
  (25, "Lansdowne Middle School"),
  (26, "Doncaster Elementary School"),
  (27, "Glanford Middle School"),
  (28, "Sundance Elementary School"),
  (29, "George Jay Elementary School"),
  (30, "Northridge Elementary School"),
  (31, "Sangster Elementary School"),
  (32, "Colwood Elementary School"),
  (33, "Reynolds High School"),
  (34, "Crystal View Elementary School"),
  (35, "David Cameron Elementary School"),
  (36, "Hans Helgesen Elementary School"),
  (37, "John Muir Elementary School"),
  (39, "Lakewood Elementary School"),
  (40, "Ruth King Elementary School"),
  (41, "CTV Victoria"),
  (42, "Butchart Gardens"),
  (46, "CTV Nanaimo"),
  (50, "Ocean Trails Resort"),
  (55, "Savory Elementary School"),
  (56, "Willway Elementary School"),
  (57, "Wishart Elementary School"),
  (58, "Dunsmuir Middle School"),
  (59, "Journey Middle School/Poirier Elementary School"),
  (60, "Esquimalt High School"),
  (61, "Cordova Bay Elementary School"),
  (62, "Deep Cove Elementary School"),
  (63, "Keating Elementary School"),
  (64, "Lochside Elementary School"),
  (66, "Prospect Lake Elementary School"),
  (67, "Sidney Elementary School"),
  (68, "Bayside Middle School"),
  (70, "Parkland Secondary School"),
  (71, "Cal Revelle Nature Sanctuary"),
  (72, "Race Rocks Ecological Reserve"),
  (73, "Craigflower Elementary School"),
  (75, "Central Middle School"),
  (76, "Lambrick Park High School"),
  (77, "McKenzie Elementary School"),
  (78, "SJ Willis Alternative School"),
  (79, "Arbutus Middle School"),
  (80, "Gordon Head Middle School"),
  (81, "Braefoot Elementary School"),
  (82, "Colquitz Middle School"),
  (83, "Winchelsea Elementary School"),
  (84, "Qualicum Beach Middle School"),
  (85, "Palsson Elementary School"),
  (86, "Randerson Ridge Elementary School"),
  (88, "PASS/Woodwinds Alternate School"),
  (89, "Springwood Middle School"),
  (90, "View Royal Elementary School"),
  (91, "French Creek Community School"),
  (92, "False Bay School"),
  (93, "Shawnigan Lake Museum"),
  (94, "Pender Islands Elementary and Secondary School"),
  (95, "Arrowview Elementary School"),
  (96, "Bowser Elementary School"),
  (97, "Qualicum Beach Elementary School"),
  (98, "Margaret Jenkins Elementary School"),
  (99, "East Highlands District Firehall"),
  (100, "District of Highlands Office"),
  (101, "West Highlands District Firehall"),
  (103, "Frances Kelsey Secondary School"),
  (104, "Happy Valley Elementary School"),
  (105, "Port Renfrew Elementary School"),
  (106, "Edward Milne Community School"),
  (107, "Millstream Elementary School"),
  (108, "Alberni Weather"),
  (109, "Brentwood Elementary School"),
  (110, "Nanoose Bay Elementary School"),
  (111, "Parksville Elementary School"),
  (112, "Saturna Elementary School"),
  (113, "Mayne Island Elementary &amp; Junior Secondary School"),
  (114, "Galiano Island Community School"),
  (115, "L'Ecole Victor Brodeur"),
  (117, "Salt Spring Elementary School &amp;Saltspring Middle School"),
  (119, "Fernwood Elementary School"),
  (120, "Fulford Elementary School"),
  (121, "Gulf Islands Secondary School"),
  (122, "Phoenix Elementary School"),
  (123, "Vancouver Island University"),
  (124, "Seaview Elementary School"),
  (125, "St. Patrick's Elementary School"),
  (126, "Quamichan Middle School"),
  (127, "Cowichan Valley Open Learning Cooperative"),
  (128, "John Stubbs Memorial School"),
  (129, "G.R. Paine Horticultural Training Centre"),
  (131, "Glenlyon Norfolk Junior School"),
  (132, "Shawnigan Lake"),
  (133, "Discovery Elementary School"),
  (134, "Swan Lake Nature House"),
  (136, "Pleasant Valley Elementary School"),
  (137, "McGirr Elementary School"),
  (138, "Bayview Elementary School"),
  (139, "L'Ecole Hammond Bay Elementary"),
  (140, "Uplands Park Elementary"),
  (141, "Mountain View Elementary"),
  (142, "View Royal Fire Department"),
  (143, "UVic Science Building"),
  (144, "Elizabeth Buckley School - Cridge Centre"),
  (145, "Chilliwack Education Centre"),
  (159, "Camosun College Lansdowne"),
  (160, "Shawnigan Lake School"),
  (161, "Bamfield Marine Sciences Centre"),
  (162, "St. Michaels University School Senior Campus"),
  (163, "UVic Social Sciences and Mathematics Building"),
  (165, "Alberni Elementary School"),
  (166, "Maquinna Elementary School"),
  (167, "Wikaninnish Community School"),
  (168, "Ucluelet High School"),
  (169, "Lighthouse Christian Academy"),
  (174, "Kelset Elementary School"),
  (176, "St. Michaels University School Junior Campus"),
  (177, "Ladysmith Secondary School"),
  (179, "Ray Watkins Elementary"),
  (180, "Captain Meares Elementary Secondary School"),
  (181, "West-Mont Montessori School"),
  (182, "Pacific Biological Station, DFO-MPO"),
  (183, "Brentwood College"),
  (184, "NEPTUNE Port Alberni"),
  (185, "Mt. Washington Alpine Resort-Nordic"),
  (186, "Mt. Washington Alpine Resort-Alpine"),
  (187, "Portage Inlet"),
  (188, "North Saanich Middle School"),
  (189, "Airport Elementary School"),
  (190, "Courtenay Elementary School"),
  (191, "Cumberland Junior Secondary School"),
  (192, "Denman Island Community School"),
  (193, "Hornby Island Community School"),
  (194, "Miracle Beach Elementary"),
  (195, "North Island Distance Education School"),
  (196, "Valley View Elementary School"),
  (197, "RASC Victoria Centre"),
  (199, "Trial Island Lightstation"),
  (200, "Longacre")
]

/-- The array `AllStationNames`: the entry at index `i`, where `none` is the
null pointer of an index without initialiser. -/
def AllStationNames (i : Nat) : Option String :=
  AllStationNamesInit.lookup i

/-- The function `getStationName`. -/
def getStationName (stationID : Int) : String :=
  if stationID < 0 ∨ stationID ≥ MAX_STATIONS then "Unknown"
  else
    match AllStationNames stationID.toNat with
    | none => "Unknown"
    | some name => name

/-! ## Output -/

/-- The output stream: the strings written to it so far, oldest first. -/
abbrev FILE := List String

/-- The strings `writePrologue` writes. -/
def prologueText : List String := [
  "<!DOCTYPE html>\n",
  "<html>\n",
  "<head>\n",
  "<meta name=\"viewport\" content=\"initial-scale=1.0, user-scalable=no\" />\n",
  "<style type=\"text/css\">\n",
  "  html \x7b height: 100% \x7d\n",
  "  body \x7b height: 100%; margin: 0; padding: 0 \x7d\n",
  "  #map_canvas \x7b height: 100% \x7d\n",
  "</style>\n",
  "<script type=\"text/javascript\"\n",
  "    src=\"http://maps.googleapis.com/maps/api/js?sensor=true\">\n",
  "</script>\n",
  "<script type=\"text/javascript\">\n",
  "  function initialize() \x7b\n",
  "    var latlng = new google.maps.LatLng(48.447,236.643);\n",
  "    var myOptions = \x7b\n",
  "      zoom: 13,\n",
  "      center: latlng,\n",
  "      mapTypeId: google.maps.MapTypeId.ROADMAP\n",
  "    \x7d;\n",
  "    var map = new google.maps.Map(document.getElementById(\"map_canvas\"),\n",
  "             myOptions);\n"
]

/-- The function `writePrologue`; `none` is the null stream. -/
def writePrologue (f : Option FILE) : Except String FILE :=
  match f with
  | none => .error "writePrologue error: output file == NULL\n"
  | some out => .ok (out ++ prologueText)

/-- The strings `writeEpilogue` writes. -/
def epilogueText : List String := [
  "  \x7d\n",
  "</script>\n",
  "</head>\n",
  "<body onload=\"initialize()\">\n",
  "  <div id=\"map_canvas\" style=\"width:100%; height:100%\"></div>\n",
  "</body>\n",
  "</html>\n"
]

/-- The function `writeEpilogue`; `none` is the null stream. -/
def writeEpilogue (f : Option FILE) : Except String FILE :=
  match f with
  | none => .error "writeEpilogue error: output file == NULL\n"
  | some out => .ok (out ++ epilogueText)

/-! ## Strings and the marker writer -/

/-- The C string held in a `char` array: the bytes before the first terminator. -/
def cstr (buf : List Char) : List Char :=
  buf.takeWhile (fun c => c != NUL)

/-- The library function `strcpy`: the C string of `src` and its terminator
replace the first bytes of `dest`. -/
def strcpy (dest src : List Char) : List Char :=
  cstr src ++ NUL :: dest.drop ((cstr src).length + 1)

/-- The `char` array filled by `sprintf` or given by a string literal: the
text followed by its terminator. -/
def cbuf (text : String) : List Char :=
  text.toList ++ [NUL]

/-- The function `escapeQuotes`: the bytes it stores through `dest`, the final
terminator included, when it reads the array `src` from its start.  The result
is `none` when `src` holds no terminator, where the C loop reads past the array. -/
def escapeQuotes : List Char → Option (List Char)
  | [] => none
  | c :: src =>
    if c = NUL then some [NUL]
    else
      match escapeQuotes src with
      | none => none
      | some dest => some (if c = QUOTE then BACKSLASH :: c :: dest else c :: dest)

/-- The loop of `strnlen2` at index `i` with `remaining = maxSize - i`
iterations left. -/
def strnlen2Loop (str : List Char) : Nat → Nat → Nat
  | 0, i => i
  | remaining + 1, i =>
    if str[i]? = some NUL then i else strnlen2Loop str remaining (i + 1)

/-- The function `strnlen2`. -/
def strnlen2 (str : List Char) (maxSize : Nat) : Nat :=
  strnlen2Loop str maxSize 0

/-- The constant `NUM_MARKER_TYPES`. -/
def NUM_MARKER_TYPES : Int := 5

/-- The designated initialisers of the array `MarkerPaths`, in source order. -/
def MarkerPathsInit : List (Int × String) := [
  (MARKER_RED, "http://maps.google.com/mapfiles/ms/icons/red-dot.png"),
  (MARKER_GREEN, "http://maps.google.com/mapfiles/ms/icons/green-dot.png"),
  (MARKER_BLUE, "http://maps.google.com/mapfiles/ms/icons/blue-dot.png"),
  (MARKER_PURPLE, "http://maps.google.com/mapfiles/ms/icons/purple-dot.png"),
  (MARKER_YELLOW, "http://maps.google.com/mapfiles/ms/icons/yellow-dot.png")
]

/-- The array `MarkerPaths`; `none` is a null entry. -/
def MarkerPaths (type : Int) : Option String :=
  MarkerPathsInit.lookup type

/-- The text the C library prints for a `float`: `f2` for the conversion
`%1.2f` and `f6` for the conversion `%f`, which is applied to coordinates only. -/
structure FloatFormat where
  f2 : FloatVal → String
  f6 : ℚ → String

/-- The first `fprintf` of `writePoint`: the info window. -/
def infoWindowStatement (markerNum : Nat) (escapedText : List Char) : String :=
  "\tvar iw" ++ toString markerNum ++ " = new google.maps.InfoWindow(\x7bcontent: '" ++
    String.mk (cstr escapedText) ++ "'\x7d);\n"

/-- The second `fprintf` of `writePoint`: the marker. -/
def markerStatement (fmt : FloatFormat) (markerNum : Nat) (location : GeographicPoint)
    (escapedName : List Char) (path : String) : String :=
  "\tvar marker" ++ toString markerNum ++
    " = new google.maps.Marker(\x7bposition: new google.maps.LatLng(" ++
    fmt.f6 location.latitude ++ "," ++ fmt.f6 location.longitude ++
    "), map: map, title: '" ++ String.mk (cstr escapedName) ++ "', icon: '" ++ path ++
    "'\x7d);\n"

/-- The third `fprintf` of `writePoint`: the click listener. -/
def listenerStatement (markerNum : Nat) : String :=
  "\tgoogle.maps.event.addListener(marker" ++ toString markerNum ++
    ", 'click', function()\x7b iw" ++ toString markerNum ++ ".open(map,marker" ++
    toString markerNum ++ "); \x7d );\n"

/-- The function `writePoint`.  The stream and the marker are `none` when the
pointer is null, `numMarkers` is the static counter before the call; the
result is the diagnostic printed before `exit(1)`, or the stream and the
counter after the call. -/
def writePoint (fmt : FloatFormat) (f : Option FILE) (marker : Option MapMarker)
    (numMarkers : Nat) : Except String (FILE × Nat) :=
  let markerNum := numMarkers
  let numMarkers := numMarkers + 1
  match f with
  | none => .error "writePoint error: output file == NULL\n"
  | some out =>
    match marker with
    | none => .error "writePoint error: marker == NULL\n"
    | some marker =>
      if strnlen2 marker.markerName 100 = 100 then
        .error "writePoint error: marker->markerName is not null-terminated\n"
      else if strnlen2 marker.markerText 1000 = 1000 then
        .error "writePoint error: marker->markerText is not null-terminated\n"
      else if marker.type < 0 ∨ marker.type ≥ NUM_MARKER_TYPES then
        .error "writePoint error: invalid marker type\n"
      else
        match MarkerPaths marker.type with
        | none => .error "writePoint error: invalid marker type\n"
        | some path =>
          match escapeQuotes marker.markerName, escapeQuotes marker.markerText with
          | some escapedName, some escapedText =>
            .ok (out ++ [infoWindowStatement markerNum escapedText,
                  markerStatement fmt markerNum marker.location escapedName path,
                  listenerStatement markerNum], numMarkers)
          | _, _ => .error "escapeQuotes: read past the end of the array\n"

/-! ## The main program -/

/-- How a run of `main` ends without its document: `exit` is a diagnostic
printed and the exit status of failure; `overflow` is a store past the end of
the named array, after which the behaviour of the program is undefined. -/
inductive Abort where
  | exit (diagnostic : String)
  | overflow (array : String)
deriving DecidableEq, Repr

/-- The library function `sprintf` storing `text` in the array `array` of
`size` bytes: the text and its terminator, when the array holds them. -/
def sprintf (array : String) (size : Nat) (text : String) : Except Abort (List Char) :=
  if text.length + 1 ≤ size then .ok (cbuf text) else .error (.overflow array)

/-- The library function `strcpy` storing the C string of `src` in the array
`array` of `size` bytes whose content is `dest`, when the array holds the
string and its terminator. -/
def strcpyInto (array : String) (size : Nat) (dest src : List Char) :
    Except Abort (List Char) :=
  if (cstr src).length + 1 ≤ size then .ok (strcpy dest src) else .error (.overflow array)

/-- The variables the read loop of `main` maintains. -/
structure ReadState where
  stationInfo : Nat → StationData
  t : Nat
  totalTemp : FloatVal

/-- An element of `stationInfo` after the initialisation loop. -/
def zeroStation : StationData :=
  { stationID := 0, location := { latitude := 0, longitude := 0 }, temperature := 0,
    year := 0, month := 0, day := 0, hour := 0, minute := 0 }

/-- The read loop of `main` from index `j` on.  An element of `lines` is the
content of `stationInfo[j]` once `sscanf` has scanned the line into it; the
empty list is the end of the file. -/
def readLoop (lines : List StationData) (j : Nat) (s : ReadState) : ReadState :=
  if j < MAX_STATIONS then
    match lines with
    | [] => s
    | line :: rest =>
      readLoop rest (j + 1)
        { stationInfo := Function.update s.stationInfo j line,
          t := if line.temperature ≠ 0 then s.t + 1 else s.t,
          totalTemp := s.totalTemp + line.temperature }
  else s

/-- The variables of the read loop before its first iteration. -/
def initialReadState : ReadState :=
  { stationInfo := fun _ => zeroStation, t := 0, totalTemp := 0 }

/-- The state of `main` after the read loop. -/
def readStations (lines : List StationData) : ReadState :=
  readLoop lines 0 initialReadState

/-- The variable `avgTemp` of `main`; for `t = 0` it is the quotient 0/0, nan. -/
def avgTemp (s : ReadState) : FloatVal :=
  s.totalTemp / s.t

/-- The text of the `sprintf` into `dateStamp`; `%d` prints an `int` in decimal. -/
def dateStampText (st : StationData) : String :=
  "(" ++ toString st.hour ++ ":" ++ toString st.minute ++ " " ++
    toString st.month ++ "/" ++ toString st.day ++ "/" ++ toString st.year ++ ")"

/-- The text of the `sprintf` into `boldName`; `%s` prints the C string of
its argument. -/
def boldNameText (markerName : List Char) : String :=
  "<b>" ++ String.mk (cstr markerName) ++ "</b>"

/-- The text of the `sprintf` into `textInMarker`. -/
def textInMarkerText (fmt : FloatFormat) (boldName : List Char) (temperature : FloatVal)
    (dateStamp : List Char) : String :=
  String.mk (cstr boldName) ++ ": " ++ fmt.f2 temperature ++ " degrees " ++
    String.mk (cstr dateStamp)

/-- The marker `mapInfo[k]` as the body of the marker loop fills it from the
station `st`, in the order of the source; `slot` is the content of
`mapInfo[k]` before.  The local arrays are `dateStamp` of 1000 bytes,
`boldName` of 100 bytes and `textInMarker` of 50 bytes. -/
def stationMarker (fmt : FloatFormat) (avg : FloatVal) (st : StationData) (slot : MapMarker) :
    Except Abort MapMarker :=
  match strcpyInto "markerName" 100 slot.markerName (cbuf (getStationName st.stationID)) with
  | .error a => .error a
  | .ok markerName =>
    match sprintf "dateStamp" 1000 (dateStampText st) with
    | .error a => .error a
    | .ok dateStamp =>
      match sprintf "boldName" 100 (boldNameText markerName) with
      | .error a => .error a
      | .ok boldName =>
        match sprintf "textInMarker" 50
            (textInMarkerText fmt boldName st.temperature dateStamp) with
        | .error a => .error a
        | .ok textInMarker =>
          match strcpyInto "markerText" 1000 slot.markerText textInMarker with
          | .error a => .error a
          | .ok markerText =>
            .ok { location :=
                    { latitude := st.location.latitude, longitude := st.location.longitude },
                  markerName := markerName,
                  markerText := markerText,
                  type := (selectColour st.temperature avg slot.type).1 }

/-- The variables the marker loop of `main` maintains: the array `mapInfo`,
the output stream and the static counter of `writePoint`. -/
structure RenderState where
  mapInfo : Nat → MapMarker
  out : FILE
  numMarkers : Nat

/-- One iteration of the marker loop of `main`. -/
def markerStep (fmt : FloatFormat) (rs : ReadState) (r : RenderState) (k : Nat) :
    Except Abort RenderState :=
  match stationMarker fmt (avgTemp rs) (rs.stationInfo k) (r.mapInfo k) with
  | .error a => .error a
  | .ok marker =>
    match writePoint fmt (some r.out) (some marker) r.numMarkers with
    | .error e => .error (.exit e)
    | .ok (out, numMarkers) =>
      .ok { mapInfo := Function.update r.mapInfo k marker, out := out,
            numMarkers := numMarkers }

/-- The marker loop of `main`: `k` runs from 0 to `t - 1`. -/
def markerLoop (fmt : FloatFormat) (rs : ReadState) (r : RenderState) :
    Except Abort RenderState :=
  (List.range rs.t).foldlM (markerStep fmt rs) r

/-- The location of the marker `ECS`. -/
def ecsLocation : GeographicPoint :=
  { latitude := ECS_LATITUDE, longitude := ECS_LONGITUDE }

/-- The loop of `main` over the stations within 2 km: the variables
`tempWithin2km` and `numValidPoints` after it.  `surfaceDistance` is the
argument `dist`. -/
def within2kmLoop (dist : GeographicPoint → GeographicPoint → ℚ) (rs : ReadState)
    (mapInfo : Nat → MapMarker) : FloatVal × Nat :=
  (List.range rs.t).foldl
    (fun acc x =>
      if dist ecsLocation (mapInfo x).location ≤ 2 then
        (acc.1 + (rs.stationInfo x).temperature, acc.2 + 1)
      else acc)
    (0, 0)

/-- The variable `ecsTemp` of `main`; for `numValidPoints = 0` it is the
quotient 0/0, nan. -/
def ecsTemp (dist : GeographicPoint → GeographicPoint → ℚ) (rs : ReadState)
    (mapInfo : Nat → MapMarker) : FloatVal :=
  (within2kmLoop dist rs mapInfo).1 / (within2kmLoop dist rs mapInfo).2

/-- The marker `ECS` as `main` fills it, in the order of the source; `slot`
is its content before.  The local array `ecsBody` has 100 bytes. -/
def ecsMarker (fmt : FloatFormat) (temp : FloatVal) (slot : MapMarker) :
    Except Abort MapMarker :=
  match sprintf "ecsBody" 100 ("<b>ECS Building</b>: " ++ fmt.f2 temp ++ " degrees") with
  | .error a => .error a
  | .ok ecsBody =>
    match strcpyInto "markerText" 1000 slot.markerText ecsBody with
    | .error a => .error a
    | .ok markerText =>
      match strcpyInto "markerName" 100 slot.markerName (cbuf "ECS Building") with
      | .error a => .error a
      | .ok markerName =>
        .ok { location := ecsLocation, markerText := markerText, type := MARKER_PURPLE,
              markerName := markerName }

/-- The function `main`.  `inFp` is the content of the input file, `none` when
it cannot be opened; `outFp` is the stream of the output file, `none` when it
cannot be opened; `mapInfo0` and `ECS0` are the arrays `mapInfo` and the
variable `ECS` as declared.  The result is the content of the output file on
success, and otherwise how the run ends. -/
def main (fmt : FloatFormat) (dist : GeographicPoint → GeographicPoint → ℚ)
    (mapInfo0 : Nat → MapMarker) (ECS0 : MapMarker)
    (inFp : Option (List StationData)) (outFp : Option FILE) : Except Abort FILE :=
  match inFp with
  | none => .error (.exit "File Plotinput.txt cannot be opened\n")
  | some lines =>
    let rs := readStations lines
    match outFp with
    | none => .error (.exit "File Plotoutput.html cannot be opened\n")
    | some out0 =>
      match writePrologue (some out0) with
      | .error e => .error (.exit e)
      | .ok out1 =>
        match markerLoop fmt rs { mapInfo := mapInfo0, out := out1, numMarkers := 0 } with
        | .error a => .error a
        | .ok r =>
          match ecsMarker fmt (ecsTemp dist rs r.mapInfo) ECS0 with
          | .error a => .error a
          | .ok ECS =>
            match writePoint fmt (some r.out) (some ECS) r.numMarkers with
            | .error e => .error (.exit e)
            | .ok (out2, _) =>
              match writeEpilogue (some out2) with
              | .error e => .error (.exit e)
              | .ok out3 => .ok out3

/-! ## Vocabulary of the properties -/

/-- An active reading: a record whose temperature is not zero. -/
def isActive (r : StationData) : Bool := decide (r.temperature ≠ 0)

/-- A record that is zero but for its temperature. -/
def mkSt (temp : ℚ) : StationData := { zeroStation with temperature := temp }

/-- The replacement the specification words for `escapeQuotes`: each single
quote becomes a backslash followed by the single quote, every other character
is kept, in order. -/
def escapeSpec (s : List Char) : List Char :=
  s.flatMap (fun c => if c = QUOTE then [BACKSLASH, QUOTE] else [c])

/-- The number of consecutive backslashes at the end of a string. -/
def trailingBackslashes (s : List Char) : Nat :=
  (s.reverse.takeWhile (fun c => c == BACKSLASH)).length

/-- Reading the body of a single quoted script literal from left to right
with the backslash as escape character; `escaped` says that the character
before was a backslash that still escapes the next one.  The body is accepted
when no single quote is read unescaped and the body does not end on a
backslash that escapes the closing quote. -/
def literalOk : Bool → List Char → Bool
  | escaped, [] => !escaped
  | true, _ :: rest => literalOk false rest
  | false, c :: rest =>
    if c = BACKSLASH then literalOk true rest
    else if c = QUOTE then false
    else literalOk false rest

/-- The three statements of the marker `m` numbered `markerNum`: its text and
name escaped as the specification words it, its icon taken from `MarkerPaths`. -/
def markerBlock (fmt : FloatFormat) (markerNum : Nat) (m : MapMarker) : List String :=
  [infoWindowStatement markerNum (escapeSpec (cstr m.markerText) ++ [NUL]),
   markerStatement fmt markerNum m.location (escapeSpec (cstr m.markerName) ++ [NUL])
     ((MarkerPaths m.type).getD ""),
   listenerStatement markerNum]

/-- The characters of the first `fprintf` of `writePoint` before the text. -/
def infoWindowOpen (markerNum : Nat) : List Char :=
  "\tvar iw".toList ++ (toString markerNum).toList ++
    " = new google.maps.InfoWindow(\x7bcontent: '".toList

/-- The characters of the first `fprintf` of `writePoint` after the text. -/
def infoWindowClose : List Char :=
  "'\x7d);\n".toList

/-- The characters of the second `fprintf` of `writePoint` before the name. -/
def markerOpen (fmt : FloatFormat) (markerNum : Nat) (location : GeographicPoint) :
    List Char :=
  "\tvar marker".toList ++ (toString markerNum).toList ++
    " = new google.maps.Marker(\x7bposition: new google.maps.LatLng(".toList ++
    (fmt.f6 location.latitude).toList ++ ",".toList ++ (fmt.f6 location.longitude).toList ++
    "), map: map, title: '".toList

/-- The characters of the second `fprintf` of `writePoint` after the name. -/
def markerClose (path : String) : List Char :=
  "', icon: '".toList ++ path.toList ++ "'\x7d);\n".toList

/-- The characters of the third `fprintf` of `writePoint`. -/
def listenerChars (markerNum : Nat) : List Char :=
  "\tgoogle.maps.event.addListener(marker".toList ++ (toString markerNum).toList ++
    ", 'click', function()\x7b iw".toList ++ (toString markerNum).toList ++
    ".open(map,marker".toList ++ (toString markerNum).toList ++ "); \x7d );\n".toList

/-- A body of a single quoted script literal in the words of the claim:
every single quote stands after an odd number of consecutive backslashes and
the body does not end in an odd number of backslashes. -/
def quotesEscaped (s : List Char) : Prop :=
  (∀ i, s[i]? = some QUOTE → trailingBackslashes (s.take i) % 2 = 1) ∧
    trailingBackslashes s % 2 = 0

/-- A name or text that `escapeQuotes` turns into a valid body: every single
quote stands after an even number of consecutive backslashes, none included,
and the string does not end in an odd number of backslashes. -/
def quotesPlain (s : List Char) : Prop :=
  (∀ i, s[i]? = some QUOTE → trailingBackslashes (s.take i) % 2 = 0) ∧
    trailingBackslashes s % 2 = 0

/-- A float format that prints every value as zero. -/
def zeroFormat : FloatFormat :=
  { f2 := fun _ => "0.00", f6 := fun _ => "0.000000" }

/-- A marker with terminated name and text and the type PURPLE. -/
def sampleMarker : MapMarker :=
  { location := ecsLocation, markerName := cbuf "ECS Building",
    markerText := cbuf "<b>ECS Building</b>", type := MARKER_PURPLE }

/-- A render pass: successive calls of `writePoint` on one stream, the static
counter carried from each call to the next. -/
def renderPass (fmt : FloatFormat) (markers : List MapMarker) (start : FILE × Nat) :
    Except String (FILE × Nat) :=
  markers.foldlM (fun st m => writePoint fmt (some st.1) (some m) st.2) start

/-- The statements of a list of markers numbered from `first` on. -/
def markerBlocks (fmt : FloatFormat) : Nat → List MapMarker → List String
  | _, [] => []
  | first, m :: rest => markerBlock fmt first m ++ markerBlocks fmt (first + 1) rest

/-- The text `main` formats into `textInMarker` for the station `st`. -/
def stationText (fmt : FloatFormat) (st : StationData) : String :=
  textInMarkerText fmt (cbuf (boldNameText (cbuf (getStationName st.stationID))))
    st.temperature (cbuf (dateStampText st))

/-- The marker `main` stores in `mapInfo[k]` for the station `st` when every
text fits its array; `slot` is the content of `mapInfo[k]` before. -/
def storedMarker (fmt : FloatFormat) (avg : FloatVal) (st : StationData) (slot : MapMarker) :
    MapMarker :=
  { location := { latitude := st.location.latitude, longitude := st.location.longitude },
    markerName := strcpy slot.markerName (cbuf (getStationName st.stationID)),
    markerText := strcpy slot.markerText (cbuf (stationText fmt st)),
    type := (selectColour st.temperature avg slot.type).1 }

/-- The text `main` formats into `ecsBody`. -/
def ecsBodyText (fmt : FloatFormat) (temp : FloatVal) : String :=
  "<b>ECS Building</b>: " ++ fmt.f2 temp ++ " degrees"

/-- The marker `ECS` of `main` when its text fits its array; `slot` is the
content of `ECS` before. -/
def storedEcs (fmt : FloatFormat) (temp : FloatVal) (slot : MapMarker) : MapMarker :=
  { location := ecsLocation,
    markerText := strcpy slot.markerText (cbuf (ecsBodyText fmt temp)),
    type := MARKER_PURPLE,
    markerName := strcpy slot.markerName (cbuf "ECS Building") }

/-- The array `mapInfo` after the marker loop of `main` has stored the
markers `mk 0`, ..., `mk (t - 1)` in it. -/
def finalMapInfo (t : Nat) (mk mapInfo0 : Nat → MapMarker) : Nat → MapMarker :=
  fun k => if k < t then mk k else mapInfo0 k

/-- A marker `writePoint` accepts: name and text terminated within their
arrays, type from 0 to 4. -/
def validMarker (m : MapMarker) : Prop :=
  strnlen2 m.markerName 100 ≠ 100 ∧ strnlen2 m.markerText 1000 ≠ 1000 ∧
    0 ≤ m.type ∧ m.type < 5

/-- The record of the line `200 0 2013 1 5 9 5 48.46104 -123.31153 1`:
a station at the ECS building with temperature zero. -/
def coldStation : StationData :=
  { stationID := 200, location := { latitude := 48.46104, longitude := -123.31153 },
    temperature := 0, year := 2013, month := 1, day := 5, hour := 9, minute := 5 }

/-- The record of the line `41 5.0 2013 1 5 9 5 48.46104 -123.31153 1`:
a station at the ECS building with temperature 5. -/
def warmStation : StationData :=
  { stationID := 41, location := { latitude := 48.46104, longitude := -123.31153 },
    temperature := 5, year := 2013, month := 1, day := 5, hour := 9, minute := 5 }

/-- The record of the line `200 nan 2013 1 5 9 5 48.46104 -123.31153 1`:
a station whose temperature is scanned as nan. -/
def nanStation : StationData :=
  { stationID := 200, location := { latitude := 48.46104, longitude := -123.31153 },
    temperature := FloatVal.nan, year := 2013, month := 1, day := 5, hour := 9, minute := 5 }

/-- The localized mean as the specification words it: the sum of the
temperatures of the active readings at most 2 km from the ECS building,
divided by their number. -/
def localizedMeanSpec (dist : GeographicPoint → GeographicPoint → ℚ)
    (lines : List StationData) : FloatVal :=
  let near := lines.filter (fun r => isActive r && decide (dist ecsLocation r.location ≤ 2))
  (near.map (fun r => r.temperature)).sum / near.length

/-- The record of the line `143 15.5 2013 11 14 10 30 48.46 -123.31 1`. -/
def sampleStation : StationData :=
  { stationID := 143, location := { latitude := 48.46, longitude := -123.31 },
    temperature := 15.5, year := 2013, month := 11, day := 14, hour := 10, minute := 30 }

/-! ## The distance on the sphere -/

/-- A `GeographicPoint` whose coordinates are real numbers, in degrees. -/
structure RealPoint where
  latitude : ℝ
  longitude : ℝ

/-- The function `surfaceDistance` evaluated over the reals: `sin`, `cos`,
`asin`, `sqrt` and `fabs` are the real functions, `M_PI` is the number pi.
A point is `none` when the pointer is null; the result is the diagnostic
printed before `exit(1)`, or the distance in kilometres. -/
noncomputable def surfaceDistance (point1 point2 : Option RealPoint) : Except String ℝ :=
  match point1 with
  | none => .error "surfaceDistance error: point1 is invalid\n"
  | some point1 =>
    match point2 with
    | none => .error "surfaceDistance error: point2 is invalid\n"
    | some point2 =>
      let RADIUS_OF_EARTH : ℝ := 6371
      let lat1 := point1.latitude * Real.pi / 180.0
      let lon1 := point1.longitude * Real.pi / 180.0
      let lat2 := point2.latitude * Real.pi / 180.0
      let lon2 := point2.longitude * Real.pi / 180.0
      let lat_diff := |lat1 - lat2|
      let lon_diff := |lon1 - lon2|
      let latsin := Real.sin (lat_diff / 2)
      let lonsin := Real.sin (lon_diff / 2)
      let angle_diff := 2 * Real.arcsin (Real.sqrt
        (latsin * latsin + Real.cos lat1 * Real.cos lat2 * lonsin * lonsin))
      .ok (RADIUS_OF_EARTH * angle_diff)

/-- The number under the square root of `surfaceDistance`, for latitudes
`lat1`, `lat2` and longitudes `lon1`, `lon2` in radians. -/
noncomputable def haversine (lat1 lon1 lat2 lon2 : ℝ) : ℝ :=
  Real.sin (|lat1 - lat2| / 2) ^ 2 +
    Real.cos lat1 * Real.cos lat2 * Real.sin (|lon1 - lon2| / 2) ^ 2

/-- Degrees converted to radians. -/
noncomputable def radians (degrees : ℝ) : ℝ :=
  degrees * Real.pi / 180

/-- A marker whose name and text hold a single quote. -/
def quoteMarker : MapMarker :=
  { location := ecsLocation, markerName := cbuf "L'Ecole Victor Brodeur",
    markerText := cbuf "<b>L'Ecole Victor Brodeur</b>", type := MARKER_RED }

/-- A float format that prints `15.50` with two decimals. -/
def sampleFormat : FloatFormat :=
  { f2 := fun _ => "15.50", f6 := fun _ => "48.460000" }


/-- The number a string of decimal digits denotes. -/
def decimalValue (s : List Char) : Nat :=
  s.foldl (fun acc c => 10 * acc + (c.toNat - 48)) 0

/-- A float format that prints `nan` for a nan and `15.50` for every other value. -/
def nanFormat : FloatFormat :=
  { f2 := fun x => match x with
      | FloatVal.nan => "nan"
      | _ => "15.50",
    f6 := fun _ => "48.460000" }

/-- A marker with terminated name and text whose type is none of the five
types, as a variable that was never stored to may be. -/
def garbageMarker : MapMarker :=
  { location := ecsLocation, markerName := cbuf "", markerText := cbuf "", type := 7 }

/-! ## Properties -/

/-! ### Values of type `float` -/

namespace FloatVal

theorem num_add_num (a b : ℚ) : (num a + num b : FloatVal) = num (a + b) := rfl

theorem num_sub_num (a b : ℚ) : (num a - num b : FloatVal) = num (a - b) := by
  show add (num a) (neg (num b)) = num (a - b)
  simp [add, neg, sub_eq_add_neg]

theorem neg_num (a : ℚ) : (-(num a) : FloatVal) = num (-a) := rfl

theorem num_lt_num (a b : ℚ) : (num a < num b) ↔ a < b := by
  show blt (num a) (num b) = true ↔ a < b
  simp [blt]

theorem num_le_num (a b : ℚ) : (num a ≤ num b) ↔ a ≤ b := by
  show ble (num a) (num b) = true ↔ a ≤ b
  simp [ble]

theorem zero_def : (0 : FloatVal) = num 0 := by
  show num ((0 : Nat) : ℚ) = num 0
  simp

theorem one_def : (1 : FloatVal) = num 1 := by
  show num ((1 : Nat) : ℚ) = num 1
  simp

theorem ofNat_def (n : Nat) [n.AtLeastTwo] :
    (OfNat.ofNat n : FloatVal) = num (OfNat.ofNat n) := by
  show num ((OfNat.ofNat n : ℕ) : ℚ) = num (OfNat.ofNat n)
  rw [Nat.cast_ofNat]

theorem ofScientific_def (m : Nat) (s : Bool) (e : Nat) :
    (OfScientific.ofScientific m s e : FloatVal) = num (OfScientific.ofScientific m s e) := rfl

theorem natCast_def (n : Nat) : ((n : Nat) : FloatVal) = num n := rfl

theorem num_div_num (a b : ℚ) (hb : b ≠ 0) : (num a / num b : FloatVal) = num (a / b) := by
  show div (num a) (num b) = num (a / b)
  simp [div, hb]

theorem float_add_zero (x : FloatVal) : x + 0 = x := by
  rw [zero_def]
  cases x
  · rw [num_add_num, add_zero]
  all_goals rfl

theorem float_zero_add (x : FloatVal) : 0 + x = x := by
  rw [zero_def]
  cases x
  · rw [num_add_num, zero_add]
  all_goals rfl

theorem float_add_assoc (x y z : FloatVal) : x + y + z = x + (y + z) := by
  cases x <;> cases y <;> cases z <;> first
    | rfl
    | (simp only [num_add_num, add_assoc])

end FloatVal

/-- On numbers the colour selection compares the exact difference. -/
theorem selectColour_num (T A : ℚ) (type0 : Int) :
    selectColour (FloatVal.num T) (FloatVal.num A) type0 =
      (let s : Int × Nat := (type0, 0)
       let s := if T - A < -1 then (MARKER_BLUE, s.2 + 1) else s
       let s := if -1 ≤ T - A ∧ T - A < 0 then (MARKER_GREEN, s.2 + 1) else s
       let s := if 0 ≤ T - A ∧ T - A < 1 then (MARKER_YELLOW, s.2 + 1) else s
       let s := if 1 ≤ T - A then (MARKER_RED, s.2 + 1) else s
       s) := by
  simp only [selectColour, FloatVal.num_sub_num, FloatVal.zero_def,
    FloatVal.one_def, FloatVal.neg_num, FloatVal.num_lt_num, FloatVal.num_le_num]

/-- C1: with `delta = T - A` the type stored by the colour selection of `main`
is BLUE when `delta < -1`, GREEN when `-1 ≤ delta < 0`, YELLOW when
`0 ≤ delta < 1` and RED when `1 ≤ delta`, whatever the slot held before; the
boundary values -1, 0 and 1 give GREEN, YELLOW and RED. -/
theorem selectColour_table (T A : ℚ) (type0 : Int) :
    (T - A < -1 → (selectColour T A type0).1 = MARKER_BLUE) ∧
    (-1 ≤ T - A → T - A < 0 → (selectColour T A type0).1 = MARKER_GREEN) ∧
    (0 ≤ T - A → T - A < 1 → (selectColour T A type0).1 = MARKER_YELLOW) ∧
    (1 ≤ T - A → (selectColour T A type0).1 = MARKER_RED) ∧
    (T - A = -1 → (selectColour T A type0).1 = MARKER_GREEN) ∧
    (T - A = 0 → (selectColour T A type0).1 = MARKER_YELLOW) ∧
    (T - A = 1 → (selectColour T A type0).1 = MARKER_RED) := by
  have hB : T - A < -1 → (selectColour T A type0).1 = MARKER_BLUE := by
    intro h
    have h1 : ¬ (-1 ≤ T - A) := by linarith
    have h2 : ¬ (0 ≤ T - A) := by linarith
    have h3 : ¬ (1 ≤ T - A) := by linarith
    simp [selectColour_num, h, h1, h2, h3]
  have hG : -1 ≤ T - A → T - A < 0 → (selectColour T A type0).1 = MARKER_GREEN := by
    intro h h'
    have h1 : ¬ (T - A < -1) := by linarith
    have h2 : ¬ (0 ≤ T - A) := by linarith
    have h3 : ¬ (1 ≤ T - A) := by linarith
    simp [selectColour_num, h, h', h1, h2, h3]
  have hY : 0 ≤ T - A → T - A < 1 → (selectColour T A type0).1 = MARKER_YELLOW := by
    intro h h'
    have h1 : ¬ (T - A < -1) := by linarith
    have h2 : ¬ (T - A < 0) := by linarith
    have h3 : ¬ (1 ≤ T - A) := by linarith
    simp [selectColour_num, h, h', h1, h2, h3]
  have hR : 1 ≤ T - A → (selectColour T A type0).1 = MARKER_RED := by
    intro h
    simp [selectColour_num, h]
  refine ⟨hB, hG, hY, hR, ?_, ?_, ?_⟩
  · intro h; exact hG (by linarith) (by linarith)
  · intro h; exact hY (by linarith) (by linarith)
  · intro h; exact hR (by linarith)

/-- Witness for C1: a reading of 15.5 against a mean of 14.5 has `delta = 1`
and is RED. -/
theorem selectColour_table_witness :
    (1 : ℚ) ≤ 15.5 - 14.5 ∧ (selectColour 15.5 14.5 (-7)).1 = MARKER_RED :=
  ⟨by norm_num, (selectColour_table 15.5 14.5 (-7)).2.2.2.1 (by norm_num)⟩

/-- C2: for every temperature and mean exactly one of the four conditions
tested by the colour selection holds, the type slot is stored to exactly once,
and the stored value is one of RED, BLUE, GREEN, YELLOW, is not PURPLE and does
not depend on what the slot held before. -/
theorem selectColour_exactly_one (T A : ℚ) (type0 : Int) :
    [decide (T - A < -1), decide (-1 ≤ T - A ∧ T - A < 0),
      decide (0 ≤ T - A ∧ T - A < 1), decide (1 ≤ T - A)].count true = 1 ∧
    (selectColour T A type0).2 = 1 ∧
    ((selectColour T A type0).1 = MARKER_RED ∨ (selectColour T A type0).1 = MARKER_BLUE ∨
      (selectColour T A type0).1 = MARKER_GREEN ∨
      (selectColour T A type0).1 = MARKER_YELLOW) ∧
    (selectColour T A type0).1 ≠ MARKER_PURPLE ∧
    ∀ type1 : Int, (selectColour T A type1).1 = (selectColour T A type0).1 := by
  rcases lt_or_le (T - A) (-1) with h | h
  · have h1 : ¬ (-1 ≤ T - A) := by linarith
    have h2 : ¬ (0 ≤ T - A) := by linarith
    have h3 : ¬ (1 ≤ T - A) := by linarith
    simp [selectColour_num, h, h1, h2, h3, MARKER_BLUE, MARKER_PURPLE]
  · rcases lt_or_le (T - A) 0 with h0 | h0
    · have h1 : ¬ (T - A < -1) := by linarith
      have h2 : ¬ (0 ≤ T - A) := by linarith
      have h3 : ¬ (1 ≤ T - A) := by linarith
      simp [selectColour_num, h, h0, h1, h2, h3, MARKER_GREEN, MARKER_PURPLE, MARKER_RED,
        MARKER_BLUE]
    · rcases lt_or_le (T - A) 1 with h4 | h4
      · have h1 : ¬ (T - A < -1) := by linarith
        have h2 : ¬ (T - A < 0) := by linarith
        have h3 : ¬ (1 ≤ T - A) := by linarith
        simp [selectColour_num, h0, h4, h1, h2, h3, MARKER_YELLOW, MARKER_PURPLE, MARKER_RED,
          MARKER_BLUE, MARKER_GREEN]
      · have h1 : ¬ (T - A < -1) := by linarith
        have h2 : ¬ (T - A < 0) := by linarith
        have h3 : ¬ (T - A < 1) := by linarith
        simp [selectColour_num, h4, h1, h2, h3, MARKER_PURPLE, MARKER_RED]

set_option maxRecDepth 100000 in
/-- No index is initialised twice in `AllStationNames`. -/
theorem AllStationNamesInit_nodup : (AllStationNamesInit.map Prod.fst).Nodup := by
  decide

/-- Looking up an association list without repeated keys finds exactly its pairs. -/
theorem lookup_eq_some_iff_mem {β : Type} (l : List (Nat × β)) (h : (l.map Prod.fst).Nodup)
    (i : Nat) (b : β) : l.lookup i = some b ↔ (i, b) ∈ l := by
  induction l with
  | nil => simp
  | cons p t ih =>
    obtain ⟨j, c⟩ := p
    simp only [List.map_cons, List.nodup_cons, List.mem_map, not_exists, not_and] at h
    by_cases hij : i = j
    · subst hij
      simp only [List.lookup_cons, beq_self_eq_true, List.mem_cons, Prod.mk.injEq, true_and]
      constructor
      · intro hb
        left
        exact (Option.some.inj hb).symm
      · rintro (hb | hb)
        · rw [hb]
        · exact absurd rfl (h.1 (i, b) hb)
    · have hne : (i == j) = false := by simpa using hij
      simp only [List.lookup_cons, hne, List.mem_cons, Prod.mk.injEq, hij, false_and, false_or]
      exact ih h.2

/-- C3: `getStationName` gives "Unknown" for an id below 0, an id of 201 or
more and an id without initialiser in `AllStationNames`, and gives the string
of the initialiser otherwise; ids 0, 2, 23 and 198 give "Unknown" and id 143
gives "UVic Science Building". -/
theorem getStationName_spec (id : Int) :
    (id < 0 ∨ id ≥ 201 ∨ (∀ s, (id.toNat, s) ∉ AllStationNamesInit) →
      getStationName id = "Unknown") ∧
    (∀ s, 0 ≤ id → id < 201 → (id.toNat, s) ∈ AllStationNamesInit →
      getStationName id = s) ∧
    getStationName 0 = "Unknown" ∧ getStationName 2 = "Unknown" ∧
    getStationName 23 = "Unknown" ∧ getStationName 198 = "Unknown" ∧
    getStationName 143 = "UVic Science Building" := by
  refine ⟨?_, ?_, by decide, by decide, by decide, by decide, by decide⟩
  · rintro (h | h | h)
    · simp [getStationName, h]
    · have h' : id ≥ (MAX_STATIONS : Int) := by simpa [MAX_STATIONS] using h
      simp [getStationName, h']
    · unfold getStationName
      split
      · rfl
      · cases hl : AllStationNames id.toNat with
        | none => rfl
        | some s =>
          exact absurd ((lookup_eq_some_iff_mem _ AllStationNamesInit_nodup _ _).1 hl) (h s)
  · intro s h0 h1 hs
    have hl : AllStationNames id.toNat = some s :=
      (lookup_eq_some_iff_mem _ AllStationNamesInit_nodup _ _).2 hs
    have h2 : ¬ (id < 0 ∨ id ≥ (MAX_STATIONS : Int)) := by
      simp only [MAX_STATIONS]; omega
    simp [getStationName, h2, hl]

/-- Witness for C3: id 115 is initialised and resolves to its string. -/
theorem getStationName_spec_witness :
    ((115 : Int).toNat, "L'Ecole Victor Brodeur") ∈ AllStationNamesInit ∧
    getStationName 115 = "L'Ecole Victor Brodeur" :=
  ⟨by decide, (getStationName_spec 115).2.1 _ (by decide) (by decide) (by decide)⟩

/-! ### The read loop -/

theorem readLoop_nil (j : Nat) (s : ReadState) : readLoop [] j s = s := by
  unfold readLoop
  split <;> rfl

theorem readLoop_cons (line : StationData) (rest : List StationData) (j : Nat) (s : ReadState)
    (h : j < MAX_STATIONS) :
    readLoop (line :: rest) j s =
      readLoop rest (j + 1)
        { stationInfo := Function.update s.stationInfo j line,
          t := if line.temperature ≠ 0 then s.t + 1 else s.t,
          totalTemp := s.totalTemp + line.temperature } := by
  rw [readLoop, if_pos h]

theorem readLoop_t (lines : List StationData) (j : Nat) (s : ReadState)
    (h : j + lines.length ≤ MAX_STATIONS) :
    (readLoop lines j s).t = s.t + (lines.filter isActive).length := by
  induction lines generalizing j s with
  | nil => simp [readLoop_nil]
  | cons line rest ih =>
    simp only [List.length_cons] at h
    rw [readLoop_cons _ _ _ _ (by omega), ih _ _ (by omega)]
    by_cases hz : line.temperature = 0
    · simp [List.filter_cons, isActive, hz]
    · simp [List.filter_cons, isActive, hz]
      omega

theorem readLoop_totalTemp (lines : List StationData) (j : Nat) (s : ReadState)
    (h : j + lines.length ≤ MAX_STATIONS) :
    (readLoop lines j s).totalTemp = s.totalTemp + (lines.map (fun r => r.temperature)).sum := by
  induction lines generalizing j s with
  | nil => simp [readLoop_nil, FloatVal.float_add_zero]
  | cons line rest ih =>
    simp only [List.length_cons] at h
    rw [readLoop_cons _ _ _ _ (by omega), ih _ _ (by omega)]
    simp only [List.map_cons, List.sum_cons, FloatVal.float_add_assoc]

theorem readLoop_stationInfo (lines : List StationData) (j : Nat) (s : ReadState)
    (h : j + lines.length ≤ MAX_STATIONS) (k : Nat) :
    (readLoop lines j s).stationInfo k =
      if j ≤ k ∧ k < j + lines.length then lines.getD (k - j) zeroStation
      else s.stationInfo k := by
  induction lines generalizing j s with
  | nil =>
    have h2 : ¬ (j ≤ k ∧ k < j + ([] : List StationData).length) := by
      simp only [List.length_nil]; omega
    rw [readLoop_nil, if_neg h2]
  | cons line rest ih =>
    simp only [List.length_cons] at h
    rw [readLoop_cons _ _ _ _ (by omega), ih _ _ (by omega)]
    by_cases hk : k = j
    · subst hk
      simp
    · by_cases h1 : j + 1 ≤ k ∧ k < j + 1 + rest.length
      · have h2 : j ≤ k ∧ k < j + (line :: rest).length := by
          simp only [List.length_cons]; omega
        rw [if_pos h1, if_pos h2]
        obtain ⟨d, hd⟩ : ∃ d, k - j = d + 1 := ⟨k - j - 1, by omega⟩
        have hd' : k - (j + 1) = d := by omega
        rw [hd, hd', List.getD_cons_succ]
      · have h2 : ¬ (j ≤ k ∧ k < j + (line :: rest).length) := by
          simp only [List.length_cons]; omega
        rw [if_neg h1, if_neg h2]
        simp [Function.update, hk]

theorem sum_filter_isActive (lines : List StationData) :
    ((lines.filter isActive).map (fun r => r.temperature)).sum =
      (lines.map (fun r => r.temperature)).sum := by
  induction lines with
  | nil => rfl
  | cons line rest ih =>
    by_cases hz : line.temperature = 0
    · simp [List.filter_cons, isActive, hz, ih, FloatVal.float_zero_add]
    · simp [List.filter_cons, isActive, hz, ih]

/-- C5: for at most 201 records of which one at least has a non-zero
temperature, `t` is the number of records with non-zero temperature, the sum
over all records is the sum over those records, and `avgTemp` is that sum
divided by that number. -/
theorem avgTemp_eq_mean_of_active (lines : List StationData)
    (hlen : lines.length ≤ 201) (hne : ∃ r ∈ lines, r.temperature ≠ 0) :
    (readStations lines).t = (lines.filter (isActive)).length ∧
    0 < (readStations lines).t ∧
    (lines.map (fun r => r.temperature)).sum =
      ((lines.filter (isActive)).map (fun r => r.temperature)).sum ∧
    avgTemp (readStations lines) =
      ((lines.filter (isActive)).map (fun r => r.temperature)).sum /
        ((lines.filter (isActive)).length : ℚ) := by
  have hb : 0 + lines.length ≤ MAX_STATIONS := by simpa [MAX_STATIONS] using hlen
  have ht := readLoop_t lines 0 initialReadState hb
  have hs := readLoop_totalTemp lines 0 initialReadState hb
  have hf := sum_filter_isActive lines
  simp only [initialReadState, zero_add, FloatVal.float_zero_add] at ht hs
  change (readStations lines).t = _ at ht
  change (readStations lines).totalTemp = _ at hs
  refine ⟨ht, ?_, hf.symm, ?_⟩
  · rw [ht]
    obtain ⟨r, hr, hr0⟩ := hne
    exact List.length_pos_of_mem (List.mem_filter.2 ⟨hr, by simpa [isActive] using hr0⟩)
  · unfold avgTemp
    rw [hs, ht, ← hf]
    rfl

/-- Witness for C5: two readings of 10 and 20 have the mean 15. -/
theorem avgTemp_eq_mean_of_active_witness :
    avgTemp (readStations [mkSt 10, mkSt 20]) = 15 := by
  have h := (avgTemp_eq_mean_of_active [mkSt 10, mkSt 20] (by decide)
    ⟨mkSt 10, by simp, by simp [mkSt, FloatVal.zero_def]⟩).2.2.2
  rw [h]
  have a1 : isActive (mkSt 10) = true := by
    simp [isActive, mkSt, FloatVal.zero_def]
  have a2 : isActive (mkSt 20) = true := by
    simp [isActive, mkSt, FloatVal.zero_def]
  rw [List.filter_cons_of_pos a1, List.filter_cons_of_pos a2, List.filter_nil]
  simp only [List.map_cons, List.map_nil, List.sum_cons, List.sum_nil, mkSt,
    FloatVal.float_add_zero, FloatVal.num_add_num, List.length_cons, List.length_nil]
  rw [FloatVal.num_div_num _ _ (by norm_num), FloatVal.ofNat_def]
  norm_num

/-! ### Strings -/

theorem cstr_nil : cstr [] = [] := rfl

theorem cstr_cons_nul (s : List Char) : cstr (NUL :: s) = [] := by
  simp [cstr]

theorem cstr_cons_ne (c : Char) (s : List Char) (hc : c ≠ NUL) :
    cstr (c :: s) = c :: cstr s := by
  simp [cstr, List.takeWhile_cons, hc]

theorem cstr_append_nul (s tail : List Char) (h : NUL ∉ s) : cstr (s ++ NUL :: tail) = s := by
  induction s with
  | nil => exact cstr_cons_nul tail
  | cons c s ih =>
    have hc : c ≠ NUL := fun e => h (by simp [e])
    have hs : NUL ∉ s := fun e => h (by simp [e])
    rw [List.cons_append, cstr_cons_ne _ _ hc, ih hs]

theorem nul_not_mem_cstr (buf : List Char) : NUL ∉ cstr buf := by
  intro h
  have := List.mem_takeWhile_imp h
  simp at this

theorem cstr_length_le (buf : List Char) : (cstr buf).length ≤ buf.length := by
  unfold cstr
  exact (List.takeWhile_sublist _).length_le

/-- A buffer that holds a terminator is its C string, the terminator and a rest. -/
theorem buf_eq_cstr_append (buf : List Char) (h : NUL ∈ buf) :
    ∃ rest, buf = cstr buf ++ NUL :: rest := by
  induction buf with
  | nil => simp at h
  | cons c s ih =>
    by_cases hc : c = NUL
    · exact ⟨s, by rw [hc, cstr_cons_nul]; rfl⟩
    · have hs : NUL ∈ s := by
        rcases List.mem_cons.1 h with e | e
        · exact absurd e.symm hc
        · exact e
      obtain ⟨rest, hr⟩ := ih hs
      refine ⟨rest, ?_⟩
      rw [cstr_cons_ne _ _ hc, List.cons_append, ← hr]

theorem escapeSpec_cons (c : Char) (s : List Char) :
    escapeSpec (c :: s) = (if c = QUOTE then [BACKSLASH, QUOTE] else [c]) ++ escapeSpec s := by
  simp [escapeSpec]

theorem escapeSpec_append (s u : List Char) :
    escapeSpec (s ++ u) = escapeSpec s ++ escapeSpec u := by
  simp [escapeSpec]

theorem nul_not_mem_escapeSpec (s : List Char) (h : NUL ∉ s) : NUL ∉ escapeSpec s := by
  induction s with
  | nil => simp [escapeSpec]
  | cons c s ih =>
    have hc : NUL ≠ c := fun e => h (by simp [e])
    have hs : NUL ∉ s := fun e => h (by simp [e])
    rw [escapeSpec_cons]
    by_cases hq : c = QUOTE
    · simp only [hq, if_true, List.mem_append, not_or]
      exact ⟨by decide, ih hs⟩
    · simp only [hq, if_false, List.mem_append, not_or, List.mem_singleton]
      exact ⟨hc, ih hs⟩

theorem escapeQuotes_append_nul (s tail : List Char) (h : NUL ∉ s) :
    escapeQuotes (s ++ NUL :: tail) = some (escapeSpec s ++ [NUL]) := by
  induction s with
  | nil => simp [escapeQuotes, escapeSpec]
  | cons c s ih =>
    have hc : c ≠ NUL := fun e => h (by simp [e])
    have hs : NUL ∉ s := fun e => h (by simp [e])
    rw [List.cons_append, escapeQuotes, if_neg hc, ih hs, escapeSpec_cons]
    by_cases hq : c = QUOTE
    · simp [hq]
    · simp [hq]

theorem escapeQuotes_of_mem (buf : List Char) (h : NUL ∈ buf) :
    escapeQuotes buf = some (escapeSpec (cstr buf) ++ [NUL]) := by
  obtain ⟨rest, hr⟩ := buf_eq_cstr_append buf h
  conv_lhs => rw [hr]
  exact escapeQuotes_append_nul _ _ (nul_not_mem_cstr buf)

theorem escapeQuotes_eq_none (buf : List Char) (h : NUL ∉ buf) : escapeQuotes buf = none := by
  induction buf with
  | nil => rfl
  | cons c s ih =>
    have hc : c ≠ NUL := fun e => h (by simp [e])
    have hs : NUL ∉ s := fun e => h (by simp [e])
    rw [escapeQuotes, if_neg hc, ih hs]

theorem quote_preceded_by_backslash (s : List Char) (i : Nat)
    (h : (escapeSpec s)[i]? = some QUOTE) :
    0 < i ∧ (escapeSpec s)[i - 1]? = some BACKSLASH := by
  induction s generalizing i with
  | nil => simp [escapeSpec] at h
  | cons c s ih =>
    rw [escapeSpec_cons] at h ⊢
    by_cases hq : c = QUOTE
    · simp only [hq, if_true] at h ⊢
      match i, h with
      | 0, h => simp [BACKSLASH, QUOTE] at h
      | 1, _ => simp
      | k + 2, h =>
        have h' : (escapeSpec s)[k]? = some QUOTE := by simpa using h
        obtain ⟨hk, hb⟩ := ih k h'
        refine ⟨by omega, ?_⟩
        obtain ⟨d, rfl⟩ : ∃ d, k = d + 1 := ⟨k - 1, by omega⟩
        simpa using hb
    · simp only [hq, if_false] at h ⊢
      match i, h with
      | 0, h =>
        simp only [List.singleton_append, List.getElem?_cons_zero, Option.some.injEq] at h
        exact absurd h hq
      | 1, h =>
        have h' : (escapeSpec s)[0]? = some QUOTE := by simpa using h
        exact absurd (ih 0 h').1 (by omega)
      | k + 2, h =>
        have h' : (escapeSpec s)[k + 1]? = some QUOTE := by simpa using h
        obtain ⟨_, hb⟩ := ih (k + 1) h'
        refine ⟨by omega, ?_⟩
        simpa using hb

/-! ### The marker writer -/

theorem strnlen2Loop_bounds (str : List Char) (r i : Nat) :
    i ≤ strnlen2Loop str r i ∧ strnlen2Loop str r i ≤ i + r := by
  induction r generalizing i with
  | zero => simp [strnlen2Loop]
  | succ r ih =>
    rw [strnlen2Loop]
    split
    · omega
    · have := ih (i + 1)
      omega

theorem strnlen2Loop_eq_iff (str : List Char) (r i : Nat) :
    strnlen2Loop str r i = i + r ↔ ∀ k, i ≤ k → k < i + r → str[k]? ≠ some NUL := by
  induction r generalizing i with
  | zero =>
    simp only [strnlen2Loop, add_zero, true_iff]
    intro k h1 h2
    omega
  | succ r ih =>
    rw [strnlen2Loop]
    by_cases h : str[i]? = some NUL
    · rw [if_pos h]
      constructor
      · intro e
        omega
      · intro hk
        exact absurd h (hk i (le_refl i) (by omega))
    · rw [if_neg h]
      have e : i + (r + 1) = i + 1 + r := by omega
      rw [e, ih (i + 1)]
      constructor
      · intro hk k h1 h2
        by_cases hki : k = i
        · rw [hki]; exact h
        · exact hk k (by omega) h2
      · intro hk k h1 h2
        exact hk k (by omega) h2

/-- The function `strnlen2` returns `maxSize` exactly when none of the first
`maxSize` bytes is the terminator. -/
theorem strnlen2_eq_iff (str : List Char) (maxSize : Nat) :
    strnlen2 str maxSize = maxSize ↔ ∀ k, k < maxSize → str[k]? ≠ some NUL := by
  have h := strnlen2Loop_eq_iff str maxSize 0
  simp only [zero_add] at h
  unfold strnlen2
  rw [h]
  constructor
  · intro hk k hlt
    exact hk k (Nat.zero_le k) hlt
  · intro hk k _ hlt
    exact hk k hlt

theorem nul_mem_of_strnlen2_ne (str : List Char) (maxSize : Nat)
    (h : strnlen2 str maxSize ≠ maxSize) : NUL ∈ str := by
  rw [Ne, strnlen2_eq_iff] at h
  push_neg at h
  obtain ⟨k, _, hk⟩ := h
  exact List.getElem?_mem hk

/-- Every marker type from 0 to 4 has an icon. -/
theorem MarkerPaths_populated (type : Int) (h0 : 0 ≤ type) (h5 : type < 5) :
    ∃ path, MarkerPaths type = some path := by
  have h : type = 0 ∨ type = 1 ∨ type = 2 ∨ type = 3 ∨ type = 4 := by omega
  rcases h with h | h | h | h | h <;> subst h <;> exact ⟨_, rfl⟩

/-- The strings `writePoint` appends for marker number `markerNum`. -/
theorem writePoint_ok (fmt : FloatFormat) (out : FILE) (m : MapMarker) (n : Nat)
    (hname : strnlen2 m.markerName 100 ≠ 100) (htext : strnlen2 m.markerText 1000 ≠ 1000)
    (h0 : 0 ≤ m.type) (h5 : m.type < 5) :
    writePoint fmt (some out) (some m) n = .ok (out ++ markerBlock fmt n m, n + 1) := by
  obtain ⟨path, hp⟩ := MarkerPaths_populated m.type h0 h5
  have h1 := escapeQuotes_of_mem _ (nul_mem_of_strnlen2_ne _ _ hname)
  have h2 := escapeQuotes_of_mem _ (nul_mem_of_strnlen2_ne _ _ htext)
  have hty : ¬ (m.type < 0 ∨ m.type ≥ NUM_MARKER_TYPES) := by
    simp only [NUM_MARKER_TYPES]; omega
  simp only [writePoint, if_neg hname, if_neg htext, if_neg hty, hp, h1, h2, markerBlock,
    Option.getD_some]

theorem writePoint_error_of_name (fmt : FloatFormat) (out : FILE) (m : MapMarker) (n : Nat)
    (hname : strnlen2 m.markerName 100 = 100) :
    ∃ e, writePoint fmt (some out) (some m) n = .error e := by
  simp [writePoint, hname]

theorem writePoint_error_of_text (fmt : FloatFormat) (out : FILE) (m : MapMarker) (n : Nat)
    (htext : strnlen2 m.markerText 1000 = 1000) :
    ∃ e, writePoint fmt (some out) (some m) n = .error e := by
  by_cases hname : strnlen2 m.markerName 100 = 100
  · exact writePoint_error_of_name fmt out m n hname
  · simp [writePoint, hname, htext]

theorem writePoint_error_of_type (fmt : FloatFormat) (out : FILE) (m : MapMarker) (n : Nat)
    (hty : m.type < 0 ∨ 4 < m.type) :
    ∃ e, writePoint fmt (some out) (some m) n = .error e := by
  by_cases hname : strnlen2 m.markerName 100 = 100
  · exact writePoint_error_of_name fmt out m n hname
  · by_cases htext : strnlen2 m.markerText 1000 = 1000
    · exact writePoint_error_of_text fmt out m n htext
    · have hty' : m.type < 0 ∨ m.type ≥ NUM_MARKER_TYPES := by
        simp only [NUM_MARKER_TYPES]; omega
      simp [writePoint, hname, htext, hty']

/-- C9: `writePoint` ends in a diagnostic exactly when the stream is null, the
marker is null, none of the first 100 bytes of `markerName` is the terminator,
none of the first 1000 bytes of `markerText` is the terminator, or the type is
below 0 or above 4; for a stream, a marker with terminated name and text and a
type from 0 to 4 it appends its three statements, numbered by the counter, and
increments the counter; every type from 0 to 4 has an icon in `MarkerPaths`. -/
theorem writePoint_fails_iff (fmt : FloatFormat) (f : Option FILE) (marker : Option MapMarker)
    (numMarkers : Nat) :
    ((∃ e, writePoint fmt f marker numMarkers = .error e) ↔
      (f = none ∨ marker = none ∨ ∃ m, marker = some m ∧
        ((∀ i, i < 100 → m.markerName[i]? ≠ some NUL) ∨
          (∀ i, i < 1000 → m.markerText[i]? ≠ some NUL) ∨ m.type < 0 ∨ 4 < m.type))) ∧
    (∀ out m, f = some out → marker = some m →
      (∃ i, i < 100 ∧ m.markerName[i]? = some NUL) →
      (∃ i, i < 1000 ∧ m.markerText[i]? = some NUL) →
      0 ≤ m.type → m.type ≤ 4 →
      ∃ escapedText escapedName path,
        escapeQuotes m.markerText = some escapedText ∧
        escapeQuotes m.markerName = some escapedName ∧
        MarkerPaths m.type = some path ∧
        writePoint fmt f marker numMarkers =
          .ok (out ++ [infoWindowStatement numMarkers escapedText,
                markerStatement fmt numMarkers m.location escapedName path,
                listenerStatement numMarkers], numMarkers + 1)) ∧
    (∀ type : Int, 0 ≤ type → type < NUM_MARKER_TYPES → MarkerPaths type ≠ none) := by
  refine ⟨?_, ?_, ?_⟩
  · cases f with
    | none => simp [writePoint]
    | some out =>
      cases marker with
      | none => simp [writePoint]
      | some m =>
        simp only [false_or, Option.some.injEq, exists_eq_left', reduceCtorEq]
        rw [← strnlen2_eq_iff, ← strnlen2_eq_iff]
        constructor
        · rintro ⟨e, he⟩
          by_contra hcon
          push_neg at hcon
          obtain ⟨h1, h2, h3, h4⟩ := hcon
          rw [writePoint_ok fmt out m numMarkers h1 h2 h3 (by omega)] at he
          cases he
        · rintro (h | h | h | h)
          · exact writePoint_error_of_name fmt out m numMarkers h
          · exact writePoint_error_of_text fmt out m numMarkers h
          · exact writePoint_error_of_type fmt out m numMarkers (Or.inl h)
          · exact writePoint_error_of_type fmt out m numMarkers (Or.inr h)
  · rintro out m rfl rfl ⟨i, hi, hin⟩ ⟨j, hj, hjn⟩ h0 h4
    have hname : strnlen2 m.markerName 100 ≠ 100 := by
      rw [Ne, strnlen2_eq_iff]
      intro h
      exact h i hi hin
    have htext : strnlen2 m.markerText 1000 ≠ 1000 := by
      rw [Ne, strnlen2_eq_iff]
      intro h
      exact h j hj hjn
    obtain ⟨path, hp⟩ := MarkerPaths_populated m.type h0 (by omega)
    refine ⟨_, _, path, escapeQuotes_of_mem _ (nul_mem_of_strnlen2_ne _ _ htext),
      escapeQuotes_of_mem _ (nul_mem_of_strnlen2_ne _ _ hname), hp, ?_⟩
    rw [writePoint_ok fmt out m numMarkers hname htext h0 (by omega)]
    simp [markerBlock, hp]
  · intro type h0 h5 hn
    obtain ⟨path, hp⟩ := MarkerPaths_populated type h0 (by simpa [NUM_MARKER_TYPES] using h5)
    rw [hp] at hn
    cases hn

/-- Witness for C9: the null stream gives a diagnostic, and a terminated
marker of type PURPLE is written. -/
theorem writePoint_fails_iff_witness :
    (∃ e, writePoint zeroFormat none (some sampleMarker) 0 = .error e) ∧
    ∃ escapedText escapedName path,
      escapeQuotes sampleMarker.markerText = some escapedText ∧
      escapeQuotes sampleMarker.markerName = some escapedName ∧
      MarkerPaths sampleMarker.type = some path ∧
      writePoint zeroFormat (some []) (some sampleMarker) 0 =
        .ok ([] ++ [infoWindowStatement 0 escapedText,
              markerStatement zeroFormat 0 sampleMarker.location escapedName path,
              listenerStatement 0], 0 + 1) :=
  ⟨(writePoint_fails_iff zeroFormat none (some sampleMarker) 0).1.2 (Or.inl rfl),
   (writePoint_fails_iff zeroFormat (some []) (some sampleMarker) 0).2.1 [] sampleMarker rfl rfl
     ⟨12, by decide, by decide⟩ ⟨19, by decide, by decide⟩ (by decide) (by decide)⟩

/-! ### The characters `writePoint` prints -/

theorem infoWindowStatement_chars (markerNum : Nat) (escapedText : List Char) :
    (infoWindowStatement markerNum escapedText).toList =
      infoWindowOpen markerNum ++ cstr escapedText ++ infoWindowClose := by
  simp [infoWindowStatement, infoWindowOpen, infoWindowClose, String.toList]

theorem markerStatement_chars (fmt : FloatFormat) (markerNum : Nat) (location : GeographicPoint)
    (escapedName : List Char) (path : String) :
    (markerStatement fmt markerNum location escapedName path).toList =
      markerOpen fmt markerNum location ++ cstr escapedName ++ markerClose path := by
  simp [markerStatement, markerOpen, markerClose, String.toList]

theorem listenerStatement_chars (markerNum : Nat) :
    (listenerStatement markerNum).toList = listenerChars markerNum := by
  simp [listenerStatement, listenerChars, String.toList]

theorem infoWindowOpen_ends_in_quote (markerNum : Nat) :
    ∃ before, infoWindowOpen markerNum = before ++ [QUOTE] :=
  ⟨"\tvar iw".toList ++ (toString markerNum).toList ++
    " = new google.maps.InfoWindow(\x7bcontent: ".toList, by
      simp [infoWindowOpen, String.toList, QUOTE]⟩

theorem markerOpen_ends_in_quote (fmt : FloatFormat) (markerNum : Nat)
    (location : GeographicPoint) :
    ∃ before, markerOpen fmt markerNum location = before ++ [QUOTE] :=
  ⟨"\tvar marker".toList ++ (toString markerNum).toList ++
    " = new google.maps.Marker(\x7bposition: new google.maps.LatLng(".toList ++
    (fmt.f6 location.latitude).toList ++ ",".toList ++ (fmt.f6 location.longitude).toList ++
    "), map: map, title: ".toList, by
      simp [markerOpen, String.toList, QUOTE]⟩

theorem infoWindowClose_starts_with_quote : ∃ rest, infoWindowClose = QUOTE :: rest :=
  ⟨_, rfl⟩

theorem markerClose_starts_with_quote (path : String) :
    ∃ rest, markerClose path = QUOTE :: rest :=
  ⟨_, rfl⟩

/-- In a statement made of an opening, an escaped string and a closing, every
single quote of the escaped string stands directly after a backslash. -/
theorem quote_after_backslash_in_statement (opening closing s : List Char) (i : Nat)
    (h : (escapeSpec s)[i]? = some QUOTE) :
    (opening ++ escapeSpec s ++ closing)[opening.length + i]? = some QUOTE ∧
    (opening ++ escapeSpec s ++ closing)[opening.length + i - 1]? = some BACKSLASH := by
  obtain ⟨hi, hb⟩ := quote_preceded_by_backslash s i h
  have hlt : i < (escapeSpec s).length := by
    by_contra hc
    rw [List.getElem?_eq_none (by omega)] at h
    cases h
  constructor
  · rw [List.append_assoc, List.getElem?_append_right (by omega)]
    have e : opening.length + i - opening.length = i := by omega
    rw [e, List.getElem?_append_left hlt, h]
  · rw [List.append_assoc, List.getElem?_append_right (by omega)]
    have e : opening.length + i - 1 - opening.length = i - 1 := by omega
    rw [e, List.getElem?_append_left (by omega), hb]

/-- The characters of the three statements `writePoint` appends. -/
theorem writePoint_chars (fmt : FloatFormat) (out : FILE) (m : MapMarker) (n : Nat)
    (r : FILE × Nat) (hr : writePoint fmt (some out) (some m) n = .ok r) :
    ∃ s1 s2 s3 path, r = (out ++ [s1, s2, s3], n + 1) ∧
      MarkerPaths m.type = some path ∧
      s1.toList = infoWindowOpen n ++ escapeSpec (cstr m.markerText) ++ infoWindowClose ∧
      s2.toList = markerOpen fmt n m.location ++ escapeSpec (cstr m.markerName) ++
        markerClose path ∧
      s3.toList = listenerChars n := by
  have hv : validMarker m := by
    by_cases hname : strnlen2 m.markerName 100 = 100
    · obtain ⟨e, he⟩ := writePoint_error_of_name fmt out m n hname
      rw [he] at hr
      cases hr
    · by_cases htext : strnlen2 m.markerText 1000 = 1000
      · obtain ⟨e, he⟩ := writePoint_error_of_text fmt out m n htext
        rw [he] at hr
        cases hr
      · by_cases hty : m.type < 0 ∨ 4 < m.type
        · obtain ⟨e, he⟩ := writePoint_error_of_type fmt out m n hty
          rw [he] at hr
          cases hr
        · exact ⟨hname, htext, by omega, by omega⟩
  obtain ⟨h1, h2, h3, h4⟩ := hv
  obtain ⟨path, hp⟩ := MarkerPaths_populated m.type h3 h4
  rw [writePoint_ok fmt out m n h1 h2 h3 h4] at hr
  cases hr
  have c1 : cstr (escapeSpec (cstr m.markerText) ++ [NUL]) = escapeSpec (cstr m.markerText) :=
    cstr_append_nul _ [] (nul_not_mem_escapeSpec _ (nul_not_mem_cstr _))
  have c2 : cstr (escapeSpec (cstr m.markerName) ++ [NUL]) = escapeSpec (cstr m.markerName) :=
    cstr_append_nul _ [] (nul_not_mem_escapeSpec _ (nul_not_mem_cstr _))
  refine ⟨_, _, _, path, rfl, hp, ?_, ?_, listenerStatement_chars n⟩
  · rw [infoWindowStatement_chars, c1]
  · rw [markerStatement_chars, c2, hp]
    rfl

/-- C7: for a string `src` without terminator stored with its terminator,
`escapeQuotes` stores the string in which each single quote of `src` is
replaced by a backslash and the single quote and every other character is
kept in order, followed by the terminator; every single quote of the result
stands directly after a backslash; and the characters `writePoint` prints
for a marker are an opening that ends in a single quote, the result for the
text, respectively the name, of the marker, and a closing that starts with a
single quote, so that in the printed statement every single quote of the text
and of the name stands directly after a backslash. -/
theorem escapeQuotes_spec (src tail : List Char) (h : NUL ∉ src) :
    escapeQuotes (src ++ NUL :: tail) = some (escapeSpec src ++ [NUL]) ∧
    cstr (escapeSpec src ++ [NUL]) = escapeSpec src ∧
    (∀ i, (escapeSpec src)[i]? = some QUOTE →
      0 < i ∧ (escapeSpec src)[i - 1]? = some BACKSLASH) ∧
    (∀ (fmt : FloatFormat) (out : FILE) (m : MapMarker) (n : Nat) (r : FILE × Nat),
      writePoint fmt (some out) (some m) n = .ok r →
      ∃ s1 s2 s3 path, r.1 = out ++ [s1, s2, s3] ∧
        s1.toList = infoWindowOpen n ++ escapeSpec (cstr m.markerText) ++ infoWindowClose ∧
        s2.toList = markerOpen fmt n m.location ++ escapeSpec (cstr m.markerName) ++
          markerClose path ∧
        (∃ before, infoWindowOpen n = before ++ [QUOTE]) ∧
        (∃ rest, infoWindowClose = QUOTE :: rest) ∧
        (∃ before, markerOpen fmt n m.location = before ++ [QUOTE]) ∧
        (∃ rest, markerClose path = QUOTE :: rest) ∧
        (∀ i, (escapeSpec (cstr m.markerText))[i]? = some QUOTE →
          s1.toList[(infoWindowOpen n).length + i]? = some QUOTE ∧
          s1.toList[(infoWindowOpen n).length + i - 1]? = some BACKSLASH) ∧
        (∀ i, (escapeSpec (cstr m.markerName))[i]? = some QUOTE →
          s2.toList[(markerOpen fmt n m.location).length + i]? = some QUOTE ∧
          s2.toList[(markerOpen fmt n m.location).length + i - 1]? = some BACKSLASH)) := by
  refine ⟨escapeQuotes_append_nul src tail h, ?_, quote_preceded_by_backslash src, ?_⟩
  · have := cstr_append_nul (escapeSpec src) [] (nul_not_mem_escapeSpec src h)
    simpa using this
  · intro fmt out m n r hr
    obtain ⟨s1, s2, s3, path, hr', _, h1, h2, _⟩ := writePoint_chars fmt out m n r hr
    refine ⟨s1, s2, s3, path, by rw [hr'], h1, h2, infoWindowOpen_ends_in_quote n,
      infoWindowClose_starts_with_quote, markerOpen_ends_in_quote fmt n m.location,
      markerClose_starts_with_quote path, ?_, ?_⟩
    · intro i hi
      rw [h1]
      exact quote_after_backslash_in_statement _ _ _ i hi
    · intro i hi
      rw [h2]
      exact quote_after_backslash_in_statement _ _ _ i hi

/-- Witness for C7: the name of station 115 is stored with a backslash before
its single quote, and `writePoint` prints it so in its statements. -/
theorem escapeQuotes_spec_witness :
    escapeQuotes (cbuf "L'Ecole Victor Brodeur") = some (cbuf "L\\'Ecole Victor Brodeur") ∧
    writePoint zeroFormat (some []) (some quoteMarker) 0 =
      .ok (["\tvar iw0 = new google.maps.InfoWindow(\x7bcontent: '<b>L\\'Ecole Victor Brodeur</b>'\x7d);\n",
        "\tvar marker0 = new google.maps.Marker(\x7bposition: new google.maps.LatLng(0.000000,0.000000), map: map, title: 'L\\'Ecole Victor Brodeur', icon: 'http://maps.google.com/mapfiles/ms/icons/red-dot.png'\x7d);\n",
        "\tgoogle.maps.event.addListener(marker0, 'click', function()\x7b iw0.open(map,marker0); \x7d );\n"],
        1) :=
  ⟨(escapeQuotes_spec "L'Ecole Victor Brodeur".toList [] (by decide)).1, rfl⟩

/-! ### Script literals -/

theorem trailingBackslashes_append_singleton (l : List Char) (c : Char) :
    trailingBackslashes (l ++ [c]) = if c = BACKSLASH then trailingBackslashes l + 1 else 0 := by
  by_cases h : c = BACKSLASH
  · simp [trailingBackslashes, List.takeWhile_cons, h]
  · simp [trailingBackslashes, List.takeWhile_cons, h]

theorem backslash_run_escapeSpec (s : List Char) (hbs : BACKSLASH ∉ s) :
    trailingBackslashes (escapeSpec s) = 0 ∧
    ∀ i, (escapeSpec s)[i]? = some QUOTE →
      trailingBackslashes ((escapeSpec s).take i) = 1 := by
  induction s using List.reverseRecOn with
  | nil =>
    refine ⟨rfl, ?_⟩
    intro i h
    simp [escapeSpec] at h
  | append_singleton s c ih =>
    have hc : c ≠ BACKSLASH := fun e => hbs (by simp [e])
    have hs : BACKSLASH ∉ s := fun e => hbs (by simp [e])
    obtain ⟨ih0, ih1⟩ := ih hs
    have hq : QUOTE ≠ BACKSLASH := by decide
    have hbq : BACKSLASH ≠ QUOTE := by decide
    rw [escapeSpec_append]
    by_cases hcq : c = QUOTE
    · have e : escapeSpec [c] = [BACKSLASH] ++ [QUOTE] := by simp [escapeSpec, hcq]
      rw [e, ← List.append_assoc]
      refine ⟨by rw [trailingBackslashes_append_singleton, if_neg hq], ?_⟩
      intro i hi
      rcases Nat.lt_trichotomy i ((escapeSpec s).length + 1) with hlt | heq | hgt
      · rcases Nat.lt_or_ge i (escapeSpec s).length with hlt' | hge'
        · rw [List.append_assoc] at hi ⊢
          rw [List.getElem?_append_left hlt'] at hi
          rw [List.take_append_of_le_length (by omega)]
          exact ih1 i hi
        · have hil : i = (escapeSpec s).length := by omega
          rw [List.append_assoc, hil, List.getElem?_append_right (le_refl _)] at hi
          simp at hi
          exact absurd hi hbq
      · have hlen : i = (escapeSpec s ++ [BACKSLASH]).length := by simp [heq]
        rw [hlen, List.take_left, trailingBackslashes_append_singleton, if_pos rfl, ih0]
      · rw [List.getElem?_eq_none (by simp; omega)] at hi
        cases hi
    · have e : escapeSpec [c] = [c] := by simp [escapeSpec, hcq]
      rw [e]
      refine ⟨by rw [trailingBackslashes_append_singleton, if_neg hc], ?_⟩
      intro i hi
      rcases Nat.lt_trichotomy i (escapeSpec s).length with hlt | heq | hgt
      · rw [List.getElem?_append_left hlt] at hi
        rw [List.take_append_of_le_length (by omega)]
        exact ih1 i hi
      · rw [heq, List.getElem?_append_right (le_refl _)] at hi
        simp at hi
        exact absurd hi hcq
      · rw [List.getElem?_eq_none (by simp; omega)] at hi
        cases hi

/-- C8 as stated fails.  The name made of `i`, `t`, a backslash, a single
quote and `s` holds a single quote, and `escapeQuotes` stores for it `i`, `t`,
two backslashes, the single quote and `s`: the single quote at index 4 stands
after two backslashes and is read unescaped.  The name made of a single quote
and a backslash is stored as backslash, single quote, backslash, which ends on
a backslash that escapes the closing quote. -/
theorem escapeQuotes_literal_counterexample :
    QUOTE ∈ "it\\'s".toList ∧
    escapeQuotes (cbuf "it\\'s") = some (cbuf "it\\\\'s") ∧
    literalOk false "it\\\\'s".toList = false ∧
    "it\\\\'s".toList[4]? = some QUOTE ∧
    trailingBackslashes ("it\\\\'s".toList.take 4) = 2 ∧
    QUOTE ∈ "'\\".toList ∧
    escapeQuotes (cbuf "'\\") = some (cbuf "\\'\\") ∧
    literalOk false "\\'\\".toList = false ∧
    trailingBackslashes "\\'\\".toList = 1 := by
  decide

/-- The name `getStationName` returns is "Unknown" or a string of the table. -/
theorem getStationName_mem (id : Int) :
    getStationName id ∈ "Unknown" :: AllStationNamesInit.map Prod.snd := by
  unfold getStationName
  split
  · exact List.mem_cons_self _ _
  · cases hl : AllStationNames id.toNat with
    | none => exact List.mem_cons_self _ _
    | some s =>
      have hm := (lookup_eq_some_iff_mem _ AllStationNamesInit_nodup _ _).1 hl
      exact List.mem_cons_of_mem _ (List.mem_map.2 ⟨_, hm, rfl⟩)

set_option maxRecDepth 100000 in
/-- Every name in the table is shorter than 60 bytes and holds neither a
terminator nor a backslash. -/
theorem station_names_plain :
    ∀ s ∈ "Unknown" :: AllStationNamesInit.map Prod.snd,
      s.length < 60 ∧ NUL ∉ s.toList ∧ BACKSLASH ∉ s.toList := by
  decide

theorem take_cons_append (pre : List Char) (c : Char) (rest : List Char) (i : Nat) :
    pre ++ (c :: rest).take (i + 1) = (pre ++ [c]) ++ rest.take i := by
  simp

/-- The properties of a string after a prefix, split at the first character. -/
theorem quotes_after_prefix_cons (pre : List Char) (c : Char) (rest : List Char) (p : Nat) :
    ((∀ i, (c :: rest)[i]? = some QUOTE →
        trailingBackslashes (pre ++ (c :: rest).take i) % 2 = p) ∧
      trailingBackslashes (pre ++ (c :: rest)) % 2 = 0) ↔
    ((c = QUOTE → trailingBackslashes pre % 2 = p) ∧
      (∀ i, rest[i]? = some QUOTE →
        trailingBackslashes ((pre ++ [c]) ++ rest.take i) % 2 = p) ∧
      trailingBackslashes ((pre ++ [c]) ++ rest) % 2 = 0) := by
  have e : pre ++ (c :: rest) = (pre ++ [c]) ++ rest := by simp
  constructor
  · rintro ⟨h1, h2⟩
    refine ⟨?_, ?_, ?_⟩
    · intro hc
      have := h1 0 (by simp [hc])
      simpa using this
    · intro i hi
      have := h1 (i + 1) (by simpa using hi)
      rwa [take_cons_append] at this
    · rwa [← e]
  · rintro ⟨h0, h1, h2⟩
    refine ⟨?_, ?_⟩
    · intro i hi
      cases i with
      | zero =>
        have hc : c = QUOTE := by simpa using hi
        simpa using h0 hc
      | succ i =>
        rw [take_cons_append]
        exact h1 i (by simpa using hi)
    · rwa [e]

/-- Reading a string from left to right after a prefix: the reader accepts it
exactly when every single quote stands after an odd number of consecutive
backslashes and the whole does not end in an odd number of backslashes. -/
theorem literalOk_after_prefix (pre l : List Char) (e : Bool)
    (he : e = true ↔ trailingBackslashes pre % 2 = 1) :
    literalOk e l = true ↔
      ((∀ i, l[i]? = some QUOTE → trailingBackslashes (pre ++ l.take i) % 2 = 1) ∧
        trailingBackslashes (pre ++ l) % 2 = 0) := by
  induction l generalizing pre e with
  | nil =>
    cases e with
    | true =>
      have := he.1 rfl
      simp [literalOk]
      omega
    | false =>
      have : ¬ trailingBackslashes pre % 2 = 1 := fun h => by simpa using he.2 h
      simp [literalOk]
      omega
  | cons c rest ih =>
    rw [quotes_after_prefix_cons]
    have hq : QUOTE ≠ BACKSLASH := by decide
    cases e with
    | true =>
      have hodd := he.1 rfl
      rw [literalOk]
      have he' : (false = true) ↔ trailingBackslashes (pre ++ [c]) % 2 = 1 := by
        rw [trailingBackslashes_append_singleton]
        by_cases hc : c = BACKSLASH
        · simp only [hc, if_true]
          constructor
          · intro h; cases h
          · intro h; omega
        · simp [hc]
      rw [ih (pre ++ [c]) false he']
      constructor
      · intro h
        exact ⟨fun _ => hodd, h.1, h.2⟩
      · intro h
        exact ⟨h.2.1, h.2.2⟩
    | false =>
      have heven : ¬ trailingBackslashes pre % 2 = 1 := fun h => by simpa using he.2 h
      by_cases hc : c = BACKSLASH
      · rw [literalOk, if_pos hc]
        have he' : (true = true) ↔ trailingBackslashes (pre ++ [c]) % 2 = 1 := by
          rw [trailingBackslashes_append_singleton, if_pos hc]
          constructor
          · intro _; omega
          · intro _; rfl
        rw [ih (pre ++ [c]) true he']
        have hcq : c ≠ QUOTE := by rw [hc]; exact fun h => hq h.symm
        constructor
        · intro h
          exact ⟨fun h' => absurd h' hcq, h.1, h.2⟩
        · intro h
          exact ⟨h.2.1, h.2.2⟩
      · by_cases hcq : c = QUOTE
        · rw [literalOk, if_neg hc, if_pos hcq]
          constructor
          · intro h; cases h
          · intro h
            exact absurd (h.1 hcq) heven
        · rw [literalOk, if_neg hc, if_neg hcq]
          have he' : (false = true) ↔ trailingBackslashes (pre ++ [c]) % 2 = 1 := by
            rw [trailingBackslashes_append_singleton, if_neg hc]
            simp
          rw [ih (pre ++ [c]) false he']
          constructor
          · intro h
            exact ⟨fun h' => absurd h' hcq, h.1, h.2⟩
          · intro h
            exact ⟨h.2.1, h.2.2⟩

/-- Reading a string from left to right accepts it exactly when it is a body
in the words of the claim. -/
theorem literalOk_iff_quotesEscaped (l : List Char) :
    literalOk false l = true ↔ quotesEscaped l := by
  have h := literalOk_after_prefix [] l false (by simp [trailingBackslashes])
  simpa [quotesEscaped] using h

/-- Reading the escaped form of a string after a prefix: the reader accepts
it exactly when every single quote of the string itself stands after an even
number of consecutive backslashes and the whole does not end in an odd
number of backslashes. -/
theorem literalOk_escapeSpec_after_prefix (pre s : List Char) (e : Bool)
    (he : e = true ↔ trailingBackslashes pre % 2 = 1) :
    literalOk e (escapeSpec s) = true ↔
      ((∀ i, s[i]? = some QUOTE → trailingBackslashes (pre ++ s.take i) % 2 = 0) ∧
        trailingBackslashes (pre ++ s) % 2 = 0) := by
  induction s generalizing pre e with
  | nil =>
    cases e with
    | true =>
      have := he.1 rfl
      simp [literalOk, escapeSpec]
      omega
    | false =>
      have : ¬ trailingBackslashes pre % 2 = 1 := fun h => by simpa using he.2 h
      simp [literalOk, escapeSpec]
      omega
  | cons c rest ih =>
    rw [quotes_after_prefix_cons, escapeSpec_cons]
    have hq : QUOTE ≠ BACKSLASH := by decide
    have hfalse : ∀ c', c' ≠ BACKSLASH →
        ((false = true) ↔ trailingBackslashes (pre ++ [c']) % 2 = 1) := by
      intro c' hc'
      rw [trailingBackslashes_append_singleton, if_neg hc']
      simp
    cases e with
    | true =>
      have hodd := he.1 rfl
      by_cases hcq : c = QUOTE
      · simp only [hcq, if_true, List.cons_append, List.nil_append]
        rw [literalOk, literalOk, if_neg hq, if_pos rfl]
        constructor
        · intro h; cases h
        · intro h
          have := h.1 trivial
          omega
      · simp only [hcq, if_false, List.cons_append, List.nil_append]
        rw [literalOk]
        have he' : (false = true) ↔ trailingBackslashes (pre ++ [c]) % 2 = 1 := by
          rw [trailingBackslashes_append_singleton]
          by_cases hc : c = BACKSLASH
          · simp only [hc, if_true]
            constructor
            · intro h; cases h
            · intro h; omega
          · simp [hc]
        rw [ih (pre ++ [c]) false he']
        constructor
        · intro h
          exact ⟨fun h' => h'.elim, h.1, h.2⟩
        · intro h
          exact ⟨h.2.1, h.2.2⟩
    | false =>
      have heven : trailingBackslashes pre % 2 = 0 := by
        have : ¬ trailingBackslashes pre % 2 = 1 := fun h => by simpa using he.2 h
        omega
      by_cases hcq : c = QUOTE
      · simp only [hcq, if_true, List.cons_append, List.nil_append]
        rw [literalOk, if_pos rfl, literalOk]
        rw [ih (pre ++ [QUOTE]) false (hfalse QUOTE hq)]
        constructor
        · intro h
          exact ⟨fun _ => heven, h.1, h.2⟩
        · intro h
          exact ⟨h.2.1, h.2.2⟩
      · simp only [hcq, if_false, List.cons_append, List.nil_append]
        by_cases hc : c = BACKSLASH
        · rw [literalOk, if_pos hc]
          have he' : (true = true) ↔ trailingBackslashes (pre ++ [c]) % 2 = 1 := by
            rw [trailingBackslashes_append_singleton, if_pos hc]
            constructor
            · intro _; omega
            · intro _; rfl
          rw [ih (pre ++ [c]) true he']
          constructor
          · intro h
            exact ⟨fun h' => h'.elim, h.1, h.2⟩
          · intro h
            exact ⟨h.2.1, h.2.2⟩
        · rw [literalOk, if_neg hc, if_neg hcq]
          rw [ih (pre ++ [c]) false (hfalse c hc)]
          constructor
          · intro h
            exact ⟨fun h' => h'.elim, h.1, h.2⟩
          · intro h
            exact ⟨h.2.1, h.2.2⟩

/-- The escaped form of a string is accepted exactly when the string is plain. -/
theorem literalOk_escapeSpec_iff (s : List Char) :
    literalOk false (escapeSpec s) = true ↔ quotesPlain s := by
  have h := literalOk_escapeSpec_after_prefix [] s false (by simp [trailingBackslashes])
  simpa [quotesPlain] using h

theorem trailingBackslashes_eq_zero_of_not_mem (s : List Char) (h : BACKSLASH ∉ s) :
    trailingBackslashes s = 0 := by
  induction s using List.reverseRecOn with
  | nil => rfl
  | append_singleton s c _ =>
    have hc : c ≠ BACKSLASH := fun e => h (by simp [e])
    rw [trailingBackslashes_append_singleton, if_neg hc]

theorem quotesPlain_of_no_backslash (s : List Char) (h : BACKSLASH ∉ s) : quotesPlain s := by
  refine ⟨?_, by rw [trailingBackslashes_eq_zero_of_not_mem s h]⟩
  intro i _
  rw [trailingBackslashes_eq_zero_of_not_mem]
  exact fun hm => h (List.mem_of_mem_take hm)

/-- C8, amended: for a name or text `src` without terminator, stored with its
terminator, the string `escapeQuotes` stores is the body `writePoint` prints
between the single quote that ends the opening of its statement and the single
quote that starts the closing; read from left to right with the backslash as escape
character it is accepted exactly when every single quote stands after an odd
number of consecutive backslashes and it does not end in an odd number of
backslashes; and this holds if and only if in `src` itself every single
quote stands after an even number of consecutive backslashes, none included,
and `src` does not end in an odd number of backslashes.  It holds in
particular when `src` holds no backslash, and then every single quote of the
body stands after exactly one backslash; the names `getStationName` returns
hold no backslash. -/
theorem escapeQuotes_literal_ok (src tail : List Char) (hnul : NUL ∉ src) :
    escapeQuotes (src ++ NUL :: tail) = some (escapeSpec src ++ [NUL]) ∧
    (literalOk false (escapeSpec src) = true ↔ quotesEscaped (escapeSpec src)) ∧
    (quotesEscaped (escapeSpec src) ↔ quotesPlain src) ∧
    (BACKSLASH ∉ src → quotesPlain src ∧
      ∀ i, (escapeSpec src)[i]? = some QUOTE →
        trailingBackslashes ((escapeSpec src).take i) = 1) ∧
    (∀ id : Int, BACKSLASH ∉ (getStationName id).toList) ∧
    (∀ (fmt : FloatFormat) (out : FILE) (m : MapMarker) (n : Nat) (r : FILE × Nat),
      writePoint fmt (some out) (some m) n = .ok r →
      ∃ s1 s2 s3 path, r.1 = out ++ [s1, s2, s3] ∧
        s1.toList = infoWindowOpen n ++ escapeSpec (cstr m.markerText) ++ infoWindowClose ∧
        s2.toList = markerOpen fmt n m.location ++ escapeSpec (cstr m.markerName) ++
          markerClose path ∧
        (∃ before, infoWindowOpen n = before ++ [QUOTE]) ∧
        (∃ rest, infoWindowClose = QUOTE :: rest) ∧
        (∃ before, markerOpen fmt n m.location = before ++ [QUOTE]) ∧
        (∃ rest, markerClose path = QUOTE :: rest) ∧
        (literalOk false (escapeSpec (cstr m.markerText)) = true ↔
          quotesPlain (cstr m.markerText)) ∧
        (literalOk false (escapeSpec (cstr m.markerName)) = true ↔
          quotesPlain (cstr m.markerName)) ∧
        (quotesEscaped (escapeSpec (cstr m.markerText)) ↔ quotesPlain (cstr m.markerText)) ∧
        (quotesEscaped (escapeSpec (cstr m.markerName)) ↔ quotesPlain (cstr m.markerName))) := by
  have key : ∀ s : List Char, quotesEscaped (escapeSpec s) ↔ quotesPlain s := fun s =>
    (literalOk_iff_quotesEscaped (escapeSpec s)).symm.trans (literalOk_escapeSpec_iff s)
  refine ⟨escapeQuotes_append_nul src tail hnul, literalOk_iff_quotesEscaped _, key src,
    ?_, ?_, ?_⟩
  · intro hbs
    exact ⟨quotesPlain_of_no_backslash src hbs, (backslash_run_escapeSpec src hbs).2⟩
  · intro id
    exact (station_names_plain _ (getStationName_mem id)).2.2
  · intro fmt out m n r hr
    obtain ⟨s1, s2, s3, path, hr', _, h1, h2, _⟩ := writePoint_chars fmt out m n r hr
    exact ⟨s1, s2, s3, path, by rw [hr'], h1, h2, infoWindowOpen_ends_in_quote n,
      infoWindowClose_starts_with_quote, markerOpen_ends_in_quote fmt n m.location,
      markerClose_starts_with_quote path, literalOk_escapeSpec_iff _,
      literalOk_escapeSpec_iff _, key _, key _⟩

/-- Witness for C8: the name made of `a`, two backslashes, a single quote and
`b` holds a single quote after two backslashes; its escaped form is a valid
body, and the name is plain. -/
theorem escapeQuotes_literal_ok_witness :
    QUOTE ∈ "a\\\\'b".toList ∧
    quotesEscaped (escapeSpec "a\\\\'b".toList) ∧ quotesPlain "a\\\\'b".toList :=
  ⟨by decide,
   (escapeQuotes_literal_ok "a\\\\'b".toList [] (by decide)).2.1.1 (by decide),
   (escapeQuotes_literal_ok "a\\\\'b".toList [] (by decide)).2.2.1.1
     ((escapeQuotes_literal_ok "a\\\\'b".toList [] (by decide)).2.1.1 (by decide))⟩

/-! ### The marker loop -/

theorem cstr_strcpy (dest src : List Char) : cstr (strcpy dest src) = cstr src := by
  unfold strcpy
  exact cstr_append_nul _ _ (nul_not_mem_cstr src)

theorem strnlen2_strcpy_ne (dest src : List Char) (n : Nat) (h : (cstr src).length < n) :
    strnlen2 (strcpy dest src) n ≠ n := by
  rw [Ne, strnlen2_eq_iff]
  intro hk
  apply hk (cstr src).length h
  unfold strcpy
  rw [List.getElem?_append_right (le_refl _)]
  simp

theorem cstr_append_singleton_nul_length_le (l : List Char) :
    (cstr (l ++ [NUL])).length ≤ l.length := by
  induction l with
  | nil => simp [cstr_cons_nul]
  | cons c l ih =>
    by_cases hc : c = NUL
    · rw [hc, List.cons_append, cstr_cons_nul]
      simp
    · rw [List.cons_append, cstr_cons_ne _ _ hc]
      simpa using ih

theorem cstr_cbuf_length_le (s : String) : (cstr (cbuf s)).length ≤ s.length := by
  unfold cbuf
  exact cstr_append_singleton_nul_length_le _

theorem sprintf_eq (array : String) (size : Nat) (text : String) :
    sprintf array size text =
      if text.length + 1 ≤ size then .ok (cbuf text) else .error (.overflow array) := rfl

theorem strcpyInto_eq (array : String) (size : Nat) (dest src : List Char) :
    strcpyInto array size dest src =
      if (cstr src).length + 1 ≤ size then .ok (strcpy dest src)
      else .error (.overflow array) := rfl

theorem boldNameText_strcpy (dest src : List Char) :
    boldNameText (strcpy dest src) = boldNameText src := by
  unfold boldNameText
  rw [cstr_strcpy]

theorem stationName_length (id : Int) : (cstr (cbuf (getStationName id))).length < 60 :=
  lt_of_le_of_lt (cstr_cbuf_length_le _) (station_names_plain _ (getStationName_mem id)).1

theorem boldNameText_length (id : Int) :
    (boldNameText (cbuf (getStationName id))).length < 67 := by
  have h := stationName_length id
  unfold boldNameText
  simp only [String.length_append]
  have e1 : ("<b>" : String).length = 3 := rfl
  have e2 : ("</b>" : String).length = 4 := rfl
  have e3 : (String.mk (cstr (cbuf (getStationName id)))).length =
      (cstr (cbuf (getStationName id))).length := rfl
  omega

/-- The marker loop body on a station whose date stamp fits its array: the
marker is stored when the text fits `textInMarker`, and the store runs past
the end of `textInMarker` otherwise. -/
theorem stationMarker_eq (fmt : FloatFormat) (avg : FloatVal) (st : StationData)
    (slot : MapMarker) (hd : (dateStampText st).length + 1 ≤ 1000) :
    stationMarker fmt avg st slot =
      if (stationText fmt st).length + 1 ≤ 50 then .ok (storedMarker fmt avg st slot)
      else .error (.overflow "textInMarker") := by
  have hn : (cstr (cbuf (getStationName st.stationID))).length + 1 ≤ 100 := by
    have := stationName_length st.stationID
    omega
  have hb : (boldNameText (cbuf (getStationName st.stationID))).length + 1 ≤ 100 := by
    have := boldNameText_length st.stationID
    omega
  unfold stationMarker
  simp only [strcpyInto_eq, sprintf_eq, if_pos hn, if_pos hd, boldNameText_strcpy, if_pos hb]
  by_cases ht : (stationText fmt st).length + 1 ≤ 50
  · have ht' : (textInMarkerText fmt (cbuf (boldNameText (cbuf (getStationName st.stationID))))
        st.temperature (cbuf (dateStampText st))).length + 1 ≤ 50 := ht
    have hm : (cstr (cbuf (stationText fmt st))).length + 1 ≤ 1000 := by
      have := cstr_cbuf_length_le (stationText fmt st)
      omega
    have hm' : (cstr (cbuf (textInMarkerText fmt
        (cbuf (boldNameText (cbuf (getStationName st.stationID))))
        st.temperature (cbuf (dateStampText st))))).length + 1 ≤ 1000 := hm
    simp only [if_pos ht, if_pos ht', if_pos hm']
    rfl
  · have ht' : ¬ (textInMarkerText fmt (cbuf (boldNameText (cbuf (getStationName st.stationID))))
        st.temperature (cbuf (dateStampText st))).length + 1 ≤ 50 := ht
    simp only [if_neg ht, if_neg ht']

theorem storedMarker_terminated (fmt : FloatFormat) (avg : FloatVal) (st : StationData)
    (slot : MapMarker) (ht : (stationText fmt st).length + 1 ≤ 50) :
    strnlen2 (storedMarker fmt avg st slot).markerName 100 ≠ 100 ∧
    strnlen2 (storedMarker fmt avg st slot).markerText 1000 ≠ 1000 := by
  constructor
  · apply strnlen2_strcpy_ne
    have := stationName_length st.stationID
    omega
  · apply strnlen2_strcpy_ne
    have := cstr_cbuf_length_le (stationText fmt st)
    omega

/-- The marker `ECS`: it is stored when its text fits `ecsBody`, and the
store runs past the end of `ecsBody` otherwise. -/
theorem ecsMarker_eq (fmt : FloatFormat) (temp : FloatVal) (slot : MapMarker) :
    ecsMarker fmt temp slot =
      if (ecsBodyText fmt temp).length + 1 ≤ 100 then .ok (storedEcs fmt temp slot)
      else .error (.overflow "ecsBody") := by
  have hn : (cstr (cbuf "ECS Building")).length + 1 ≤ 100 := by decide
  unfold ecsMarker
  simp only [strcpyInto_eq, sprintf_eq, if_pos hn]
  by_cases ht : (ecsBodyText fmt temp).length + 1 ≤ 100
  · have ht' : ("<b>ECS Building</b>: " ++ fmt.f2 temp ++ " degrees").length + 1 ≤ 100 := ht
    have hm : (cstr (cbuf ("<b>ECS Building</b>: " ++ fmt.f2 temp ++ " degrees"))).length + 1
        ≤ 1000 := by
      have := cstr_cbuf_length_le ("<b>ECS Building</b>: " ++ fmt.f2 temp ++ " degrees")
      omega
    simp only [if_pos ht, if_pos ht', if_pos hm]
    rfl
  · have ht' : ¬ ("<b>ECS Building</b>: " ++ fmt.f2 temp ++ " degrees").length + 1 ≤ 100 := ht
    simp only [if_neg ht, if_neg ht']

theorem ecsBodyText_length (fmt : FloatFormat) (temp : FloatVal) :
    (ecsBodyText fmt temp).length = 29 + (fmt.f2 temp).length := by
  unfold ecsBodyText
  simp only [String.length_append]
  have e1 : ("<b>ECS Building</b>: " : String).length = 21 := rfl
  have e2 : (" degrees" : String).length = 8 := rfl
  omega

theorem storedEcs_valid (fmt : FloatFormat) (temp : FloatVal) (slot : MapMarker)
    (ht : (ecsBodyText fmt temp).length + 1 ≤ 100) : validMarker (storedEcs fmt temp slot) := by
  refine ⟨?_, ?_, ?_, ?_⟩
  · apply strnlen2_strcpy_ne
    have : (cstr (cbuf "ECS Building")).length = 12 := by decide
    omega
  · apply strnlen2_strcpy_ne
    have := cstr_cbuf_length_le (ecsBodyText fmt temp)
    omega
  · show (0 : Int) ≤ MARKER_PURPLE
    decide
  · show MARKER_PURPLE < 5
    decide

theorem markerStep_ok (fmt : FloatFormat) (rs : ReadState) (r : RenderState) (k : Nat)
    (m : MapMarker)
    (hm : stationMarker fmt (avgTemp rs) (rs.stationInfo k) (r.mapInfo k) = .ok m)
    (hv : validMarker m) :
    markerStep fmt rs r k =
      .ok { mapInfo := Function.update r.mapInfo k m,
            out := r.out ++ markerBlock fmt r.numMarkers m,
            numMarkers := r.numMarkers + 1 } := by
  obtain ⟨h1, h2, h3, h4⟩ := hv
  unfold markerStep
  simp only [hm, writePoint_ok fmt r.out m r.numMarkers h1 h2 h3 h4]

theorem markerStep_abort (fmt : FloatFormat) (rs : ReadState) (r : RenderState) (k : Nat)
    (a : Abort)
    (hm : stationMarker fmt (avgTemp rs) (rs.stationInfo k) (r.mapInfo k) = .error a) :
    markerStep fmt rs r k = .error a := by
  unfold markerStep
  simp only [hm]

theorem markerBlocks_append (fmt : FloatFormat) (first : Nat) (l : List MapMarker)
    (m : MapMarker) :
    markerBlocks fmt first (l ++ [m]) =
      markerBlocks fmt first l ++ markerBlock fmt (first + l.length) m := by
  induction l generalizing first with
  | nil => simp [markerBlocks]
  | cons a l ih =>
    have e : first + 1 + l.length = first + (l.length + 1) := by omega
    rw [List.cons_append, markerBlocks, markerBlocks, ih, List.length_cons, List.append_assoc, e]

theorem markerBlocks_length (fmt : FloatFormat) (first : Nat) (l : List MapMarker) :
    (markerBlocks fmt first l).length = 3 * l.length := by
  induction l generalizing first with
  | nil => rfl
  | cons a l ih =>
    simp only [markerBlocks, List.length_append, ih, List.length_cons, markerBlock,
      List.length_nil]
    omega

/-- The marker loop after `n` iterations that store the valid markers
`mk 0`, ..., `mk (n - 1)`. -/
theorem markerLoop_prefix (fmt : FloatFormat) (rs : ReadState) (r0 : RenderState) (n : Nat)
    (mk : Nat → MapMarker)
    (hk : ∀ k, k < n →
      stationMarker fmt (avgTemp rs) (rs.stationInfo k) (r0.mapInfo k) = .ok (mk k) ∧
        validMarker (mk k)) :
    (List.range n).foldlM (markerStep fmt rs) r0 =
      .ok { mapInfo := finalMapInfo n mk r0.mapInfo,
            out := r0.out ++ markerBlocks fmt r0.numMarkers ((List.range n).map mk),
            numMarkers := r0.numMarkers + n } := by
  induction n with
  | zero =>
    simp [markerBlocks, finalMapInfo]
    rfl
  | succ n ih =>
    rw [List.range_succ, List.foldlM_append, ih (fun k hk' => hk k (by omega))]
    simp only [List.foldlM_cons, List.foldlM_nil, bind, Except.bind]
    have hslot : finalMapInfo n mk r0.mapInfo n = r0.mapInfo n := by
      simp [finalMapInfo]
    have hn := hk n (by omega)
    rw [markerStep_ok fmt rs _ n (mk n) (by simp only [hslot]; exact hn.1) hn.2]
    simp only [pure, Except.pure, List.map_append, List.map_cons, List.map_nil,
      markerBlocks_append, List.length_map, List.length_range, List.append_assoc]
    congr 2
    funext k
    by_cases hkn : k = n
    · subst hkn
      simp [finalMapInfo]
    · by_cases hlt : k < n
      · have : k < n + 1 := by omega
        simp [Function.update, finalMapInfo, hkn, hlt, this]
      · have : ¬ k < n + 1 := by omega
        simp [Function.update, finalMapInfo, hkn, hlt, this]

/-- The output of `main` when the marker loop stores the valid markers
`mk 0`, ..., `mk (t - 1)` and the marker `ECS` is stored as `ecs`. -/
theorem main_eq (fmt : FloatFormat) (dist : GeographicPoint → GeographicPoint → ℚ)
    (mapInfo0 : Nat → MapMarker) (ECS0 : MapMarker) (lines : List StationData) (out0 : FILE)
    (mk : Nat → MapMarker) (ecs : MapMarker)
    (hk : ∀ k, k < (readStations lines).t →
      stationMarker fmt (avgTemp (readStations lines)) ((readStations lines).stationInfo k)
        (mapInfo0 k) = .ok (mk k) ∧ validMarker (mk k))
    (he : ecsMarker fmt
      (ecsTemp dist (readStations lines) (finalMapInfo (readStations lines).t mk mapInfo0))
      ECS0 = .ok ecs)
    (hv : validMarker ecs) :
    main fmt dist mapInfo0 ECS0 (some lines) (some out0) =
      .ok (out0 ++ prologueText ++
        markerBlocks fmt 0 ((List.range (readStations lines).t).map mk) ++
        markerBlock fmt (readStations lines).t ecs ++ epilogueText) := by
  have hloop := markerLoop_prefix fmt (readStations lines)
    { mapInfo := mapInfo0, out := out0 ++ prologueText, numMarkers := 0 }
    (readStations lines).t mk hk
  obtain ⟨h1, h2, h3, h4⟩ := hv
  simp only [main, writePrologue, markerLoop, hloop, zero_add, he,
    writePoint_ok fmt _ ecs (readStations lines).t h1 h2 h3 h4, writeEpilogue]

/-! ### The program on a zero temperature followed by a non-zero one -/

theorem readStations_cold_warm :
    (readStations [coldStation, warmStation]).t = 1 ∧
    (readStations [coldStation, warmStation]).totalTemp = 5 ∧
    (readStations [coldStation, warmStation]).stationInfo 0 = coldStation ∧
    (readStations [coldStation, warmStation]).stationInfo 1 = warmStation := by
  have h0 : (0 : Nat) < MAX_STATIONS := by decide
  have h1 : (0 + 1 : Nat) < MAX_STATIONS := by decide
  have c0 : coldStation.temperature = 0 := rfl
  have c1 : warmStation.temperature = 5 := rfl
  have ne : (5 : FloatVal) ≠ 0 := by
    rw [FloatVal.ofNat_def, FloatVal.zero_def]
    simp
  unfold readStations
  rw [readLoop_cons _ _ _ _ h0, readLoop_cons _ _ _ _ h1, readLoop_nil]
  refine ⟨?_, ?_, ?_, ?_⟩
  · simp [initialReadState, c0, c1, ne]
  · simp [initialReadState, c0, c1, FloatVal.float_zero_add]
  · simp [Function.update]
  · simp [Function.update]

theorem avgTemp_cold_warm : avgTemp (readStations [coldStation, warmStation]) = 5 := by
  obtain ⟨h1, h2, _, _⟩ := readStations_cold_warm
  unfold avgTemp
  rw [h1, h2, FloatVal.natCast_def, FloatVal.ofNat_def, FloatVal.num_div_num _ _ (by norm_num)]
  norm_num

theorem stationText_cold (fmt : FloatFormat) (h0 : fmt.f2 0 = "0.00") :
    stationText fmt coldStation = "<b>Longacre</b>: 0.00 degrees (9:5 1/5/2013)" := by
  show String.mk (cstr (cbuf (boldNameText (cbuf (getStationName 200))))) ++ ": " ++
    fmt.f2 0 ++ " degrees " ++ String.mk (cstr (cbuf (dateStampText coldStation))) = _
  rw [h0]
  decide

theorem selectColour_cold (type0 : Int) : (selectColour 0 5 type0).1 = MARKER_BLUE := by
  rw [FloatVal.zero_def, FloatVal.ofNat_def, selectColour_num]
  norm_num

theorem stationMarker_cold (fmt : FloatFormat) (slot : MapMarker) (h0 : fmt.f2 0 = "0.00") :
    stationMarker fmt 5 coldStation slot = .ok (storedMarker fmt 5 coldStation slot) ∧
    validMarker (storedMarker fmt 5 coldStation slot) := by
  have ht : (stationText fmt coldStation).length + 1 ≤ 50 := by
    rw [stationText_cold fmt h0]
    decide
  refine ⟨?_, ?_⟩
  · rw [stationMarker_eq fmt 5 coldStation slot (by decide), if_pos ht]
  · obtain ⟨h1, h2⟩ := storedMarker_terminated fmt 5 coldStation slot ht
    refine ⟨h1, h2, ?_, ?_⟩
    · show 0 ≤ (selectColour 0 5 slot.type).1
      rw [selectColour_cold]
      decide
    · show (selectColour 0 5 slot.type).1 < 5
      rw [selectColour_cold]
      decide

theorem ecsTemp_cold_warm (dist : GeographicPoint → GeographicPoint → ℚ)
    (mk mapInfo0 : Nat → MapMarker) (hloc : (mk 0).location = ecsLocation)
    (hd : dist ecsLocation ecsLocation ≤ 2) :
    ecsTemp dist (readStations [coldStation, warmStation])
      (finalMapInfo 1 mk mapInfo0) = 0 := by
  obtain ⟨h1, _, h3, _⟩ := readStations_cold_warm
  have hfin : (finalMapInfo 1 mk mapInfo0 0).location = ecsLocation := by
    simp [finalMapInfo, hloc]
  have htemp : ((readStations [coldStation, warmStation]).stationInfo 0).temperature = 0 := by
    rw [h3]
    rfl
  have hr : List.range 1 = [0] := rfl
  unfold ecsTemp within2kmLoop
  rw [h1, hr]
  simp only [List.foldl, hfin, hd, if_true, htemp, FloatVal.float_zero_add, zero_add]
  rw [FloatVal.natCast_def, FloatVal.zero_def, FloatVal.num_div_num _ _ (by norm_num)]
  norm_num

theorem localizedMeanSpec_cold_warm (dist : GeographicPoint → GeographicPoint → ℚ)
    (hd : dist ecsLocation ecsLocation ≤ 2) :
    localizedMeanSpec dist [coldStation, warmStation] = 5 := by
  have e2 : warmStation.location = ecsLocation := rfl
  have a1 : isActive coldStation = false := by
    have c0 : coldStation.temperature = 0 := rfl
    simp [isActive, c0]
  have a2 : isActive warmStation = true := by
    have c1 : warmStation.temperature = 5 := rfl
    simp [isActive, c1, FloatVal.ofNat_def, FloatVal.zero_def]
  have f : [coldStation, warmStation].filter
      (fun r => isActive r && decide (dist ecsLocation r.location ≤ 2)) = [warmStation] := by
    rw [List.filter_cons_of_neg (by simp [a1]), List.filter_cons_of_pos (by simp [a2, e2, hd]),
      List.filter_nil]
  have ht : warmStation.temperature = 5 := rfl
  simp only [localizedMeanSpec, f, List.map_cons, List.map_nil, List.sum_cons, List.sum_nil,
    ht, FloatVal.float_add_zero, List.length_cons, List.length_nil, zero_add]
  rw [FloatVal.natCast_def, FloatVal.ofNat_def, FloatVal.num_div_num _ _ (by norm_num)]
  norm_num

/-- The output of `main` on the two records, for a format that prints zero as
`0.00` and no value in more than 43 characters. -/
theorem main_cold_warm (fmt : FloatFormat) (dist : GeographicPoint → GeographicPoint → ℚ)
    (mapInfo0 : Nat → MapMarker) (ECS0 : MapMarker) (hfmt : ∀ x, (fmt.f2 x).length ≤ 43)
    (h0 : fmt.f2 0 = "0.00") :
    main fmt dist mapInfo0 ECS0 (some [coldStation, warmStation]) (some []) =
      .ok (prologueText ++ markerBlock fmt 0 (storedMarker fmt 5 coldStation (mapInfo0 0)) ++
        markerBlock fmt 1
          (storedEcs fmt
            (ecsTemp dist (readStations [coldStation, warmStation])
              (finalMapInfo 1 (fun k => storedMarker fmt 5 coldStation (mapInfo0 k)) mapInfo0))
            ECS0) ++
        epilogueText) := by
  obtain ⟨h1, _, h3, _⟩ := readStations_cold_warm
  have hfit : ∀ temp, (ecsBodyText fmt temp).length + 1 ≤ 100 := by
    intro temp
    have := hfmt temp
    rw [ecsBodyText_length]
    omega
  have hm := main_eq fmt dist mapInfo0 ECS0 [coldStation, warmStation] []
    (fun k => storedMarker fmt 5 coldStation (mapInfo0 k))
    (storedEcs fmt
      (ecsTemp dist (readStations [coldStation, warmStation])
        (finalMapInfo 1 (fun k => storedMarker fmt 5 coldStation (mapInfo0 k)) mapInfo0)) ECS0)
    (by
      intro k hk
      rw [h1] at hk
      have hk0 : k = 0 := by omega
      subst hk0
      rw [avgTemp_cold_warm, h3]
      exact stationMarker_cold fmt (mapInfo0 0) h0)
    (by
      rw [h1, ecsMarker_eq, if_pos (hfit _)])
    (storedEcs_valid fmt _ ECS0 (hfit _))
  rw [hm, h1]
  simp [markerBlocks]

/-! ### Render passes -/

theorem writePoint_eq_of_ok (fmt : FloatFormat) (out : FILE) (m : MapMarker) (n : Nat)
    (r : FILE × Nat) (hr : writePoint fmt (some out) (some m) n = .ok r) :
    r = (out ++ markerBlock fmt n m, n + 1) := by
  by_cases hname : strnlen2 m.markerName 100 = 100
  · obtain ⟨e, he⟩ := writePoint_error_of_name fmt out m n hname
    rw [he] at hr
    cases hr
  · by_cases htext : strnlen2 m.markerText 1000 = 1000
    · obtain ⟨e, he⟩ := writePoint_error_of_text fmt out m n htext
      rw [he] at hr
      cases hr
    · by_cases hty : m.type < 0 ∨ 4 < m.type
      · obtain ⟨e, he⟩ := writePoint_error_of_type fmt out m n hty
        rw [he] at hr
        cases hr
      · rw [writePoint_ok fmt out m n hname htext (by omega) (by omega)] at hr
        cases hr
        rfl

theorem renderPass_nil (fmt : FloatFormat) (start : FILE × Nat) :
    renderPass fmt [] start = .ok start := rfl

theorem renderPass_cons (fmt : FloatFormat) (m : MapMarker) (rest : List MapMarker)
    (start : FILE × Nat) :
    renderPass fmt (m :: rest) start =
      match writePoint fmt (some start.1) (some m) start.2 with
      | .error e => .error e
      | .ok next => renderPass fmt rest next := by
  unfold renderPass
  rw [List.foldlM_cons]
  cases writePoint fmt (some start.1) (some m) start.2 <;> rfl

theorem renderPass_ok (fmt : FloatFormat) (markers : List MapMarker) (out : FILE) (c : Nat)
    (h : ∀ m ∈ markers, validMarker m) :
    renderPass fmt markers (out, c) =
      .ok (out ++ markerBlocks fmt c markers, c + markers.length) := by
  induction markers generalizing out c with
  | nil => simp [renderPass_nil, markerBlocks]
  | cons m rest ih =>
    obtain ⟨h1, h2, h3, h4⟩ := h m (List.mem_cons_self _ _)
    rw [renderPass_cons, writePoint_ok fmt out m c h1 h2 h3 h4]
    simp only
    have e : c + 1 + rest.length = c + (rest.length + 1) := by omega
    rw [ih _ _ (fun x hx => h x (List.mem_cons_of_mem _ hx)), e]
    simp only [markerBlocks, List.append_assoc, List.length_cons]

theorem renderPass_eq_of_ok (fmt : FloatFormat) (markers : List MapMarker) (out : FILE)
    (c : Nat) (r : FILE × Nat) (h : renderPass fmt markers (out, c) = .ok r) :
    r = (out ++ markerBlocks fmt c markers, c + markers.length) := by
  induction markers generalizing out c with
  | nil =>
    rw [renderPass_nil] at h
    cases h
    simp [markerBlocks]
  | cons m rest ih =>
    rw [renderPass_cons] at h
    cases hw : writePoint fmt (some out) (some m) c with
    | error e =>
      simp only [hw] at h
      cases h
    | ok next =>
      simp only [hw] at h
      have hn := writePoint_eq_of_ok fmt out m c next hw
      subst hn
      have e : c + 1 + rest.length = c + (rest.length + 1) := by omega
      rw [ih _ _ h, e]
      simp only [markerBlocks, List.append_assoc, List.length_cons]

theorem markerBlock_length (fmt : FloatFormat) (n : Nat) (m : MapMarker) :
    (markerBlock fmt n m).length = 3 := rfl

/-- The statements of the marker at position `k` of a list stand at the
positions `3 * k`, `3 * k + 1` and `3 * k + 2` and carry the number `first + k`. -/
theorem markerBlocks_getElem (fmt : FloatFormat) (first : Nat) (markers : List MapMarker)
    (k : Nat) (m : MapMarker) (hm : markers[k]? = some m) (j : Nat) (hj : j < 3) :
    (markerBlocks fmt first markers)[3 * k + j]? = (markerBlock fmt (first + k) m)[j]? := by
  induction markers generalizing first k with
  | nil => simp at hm
  | cons a rest ih =>
    rw [markerBlocks]
    cases k with
    | zero =>
      simp only [List.getElem?_cons_zero, Option.some.injEq] at hm
      subst hm
      rw [List.getElem?_append_left (by rw [markerBlock_length]; omega)]
      simp
    | succ k =>
      simp only [List.getElem?_cons_succ] at hm
      have hle : (markerBlock fmt first a).length ≤ 3 * (k + 1) + j := by
        rw [markerBlock_length]; omega
      rw [List.getElem?_append_right hle, markerBlock_length]
      have e1 : 3 * (k + 1) + j - 3 = 3 * k + j := by omega
      have e2 : first + (k + 1) = first + 1 + k := by omega
      rw [e1, e2]
      exact ih (first + 1) k hm

theorem zeroFormat_bounded : ∀ x, (zeroFormat.f2 x).length ≤ 43 := by
  intro x
  show ("0.00" : String).length ≤ 43
  decide


theorem storedMarker_cold_text (fmt : FloatFormat) (slot : MapMarker)
    (h0 : fmt.f2 0 = "0.00") :
    cstr (storedMarker fmt 5 coldStation slot).markerText =
      "<b>Longacre</b>: 0.00 degrees (9:5 1/5/2013)".toList := by
  show cstr (strcpy slot.markerText (cbuf (stationText fmt coldStation))) = _
  rw [cstr_strcpy, stationText_cold fmt h0]
  decide

theorem storedEcs_text_zero (fmt : FloatFormat) (slot : MapMarker) (h0 : fmt.f2 0 = "0.00") :
    cstr (storedEcs fmt 0 slot).markerText = "<b>ECS Building</b>: 0.00 degrees".toList := by
  show cstr (strcpy slot.markerText (cbuf ("<b>ECS Building</b>: " ++ fmt.f2 0 ++ " degrees"))) = _
  rw [cstr_strcpy, h0]
  decide

/-- C4 on the code: for the two lines `200 0 2013 1 5 9 5 48.46104 -123.31153
1` and `41 5.0 2013 1 5 9 5 48.46104 -123.31153 1`, and a format `%1.2f` that
prints zero as `0.00` and no value in more than 43 characters, the only active
reading is the second record and `t` is 1, yet the single station marker
`main` writes is that of the first record, whose temperature is zero: its
name is "Longacre", its info window reads `<b>Longacre</b>: 0.00 degrees
(9:5 1/5/2013)`; the second record has no marker. -/
theorem main_renders_first_t_records (fmt : FloatFormat)
    (dist : GeographicPoint → GeographicPoint → ℚ) (mapInfo0 : Nat → MapMarker)
    (ECS0 : MapMarker) (hfmt : ∀ x, (fmt.f2 x).length ≤ 43) (h0 : fmt.f2 0 = "0.00") :
    [coldStation, warmStation].filter isActive = [warmStation] ∧
    (readStations [coldStation, warmStation]).t = 1 ∧
    coldStation.temperature = 0 ∧
    cstr (storedMarker fmt 5 coldStation (mapInfo0 0)).markerName = "Longacre".toList ∧
    cstr (storedMarker fmt 5 coldStation (mapInfo0 0)).markerText =
      "<b>Longacre</b>: 0.00 degrees (9:5 1/5/2013)".toList ∧
    (markerBlock fmt 0 (storedMarker fmt 5 coldStation (mapInfo0 0)))[0]? =
      some ("\tvar iw0 = new google.maps.InfoWindow(\x7bcontent: " ++
        "'<b>Longacre</b>: 0.00 degrees (9:5 1/5/2013)'\x7d);\n") ∧
    ∃ temp, main fmt dist mapInfo0 ECS0 (some [coldStation, warmStation]) (some []) =
      .ok (prologueText ++ markerBlock fmt 0 (storedMarker fmt 5 coldStation (mapInfo0 0)) ++
        markerBlock fmt 1 (storedEcs fmt temp ECS0) ++ epilogueText) := by
  have c0 : coldStation.temperature = 0 := rfl
  have c1 : warmStation.temperature = 5 := rfl
  have a1 : isActive coldStation = false := by simp [isActive, c0]
  have a2 : isActive warmStation = true := by
    simp [isActive, c1, FloatVal.ofNat_def, FloatVal.zero_def]
  refine ⟨?_, readStations_cold_warm.1, rfl, ?_, storedMarker_cold_text fmt _ h0, ?_, ?_⟩
  · rw [List.filter_cons_of_neg (by simp [a1]), List.filter_cons_of_pos a2, List.filter_nil]
  · show cstr (strcpy (mapInfo0 0).markerName (cbuf (getStationName 200))) = _
    rw [cstr_strcpy]
    decide
  · show some (infoWindowStatement 0
      (escapeSpec (cstr (storedMarker fmt 5 coldStation (mapInfo0 0)).markerText) ++ [NUL])) = _
    rw [storedMarker_cold_text fmt _ h0]
    decide
  · exact ⟨_, main_cold_warm fmt dist mapInfo0 ECS0 hfmt h0⟩

/-- Witness for the evaluation of C4, with a format that prints zero. -/
theorem main_renders_first_t_records_witness :
    ∃ temp, main zeroFormat (fun _ _ => 0) (fun _ => sampleMarker) sampleMarker
        (some [coldStation, warmStation]) (some []) =
      .ok (prologueText ++
        markerBlock zeroFormat 0 (storedMarker zeroFormat 5 coldStation sampleMarker) ++
        markerBlock zeroFormat 1 (storedEcs zeroFormat temp sampleMarker) ++ epilogueText) :=
  (main_renders_first_t_records zeroFormat (fun _ _ => 0) (fun _ => sampleMarker) sampleMarker
    zeroFormat_bounded rfl).2.2.2.2.2.2

/-- C6 on the code: for the two lines `200 0 2013 1 5 9 5 48.46104 -123.31153
1` and `41 5.0 2013 1 5 9 5 48.46104 -123.31153 1`, both at the ECS building,
a distance that puts the building within 2 km of itself, and a format `%1.2f`
that prints zero as `0.00` and no value in more than 43 characters, the mean
of the active readings within 2 km is 5, while `ecsTemp` is 0: the loop adds
the first `t = 1` records, here the record of temperature zero, and the ECS
marker of `main` carries that value, its info window reading
`<b>ECS Building</b>: 0.00 degrees`. -/
theorem ecsTemp_counts_first_t_records (fmt : FloatFormat)
    (dist : GeographicPoint → GeographicPoint → ℚ) (mapInfo0 : Nat → MapMarker)
    (ECS0 : MapMarker) (hfmt : ∀ x, (fmt.f2 x).length ≤ 43) (h0 : fmt.f2 0 = "0.00")
    (hd : dist ecsLocation ecsLocation ≤ 2) :
    localizedMeanSpec dist [coldStation, warmStation] = 5 ∧
    ecsTemp dist (readStations [coldStation, warmStation])
      (finalMapInfo 1 (fun k => storedMarker fmt 5 coldStation (mapInfo0 k)) mapInfo0) = 0 ∧
    main fmt dist mapInfo0 ECS0 (some [coldStation, warmStation]) (some []) =
      .ok (prologueText ++ markerBlock fmt 0 (storedMarker fmt 5 coldStation (mapInfo0 0)) ++
        markerBlock fmt 1 (storedEcs fmt 0 ECS0) ++ epilogueText) ∧
    (markerBlock fmt 1 (storedEcs fmt 0 ECS0))[0]? =
      some ("\tvar iw1 = new google.maps.InfoWindow(\x7bcontent: " ++
        "'<b>ECS Building</b>: 0.00 degrees'\x7d);\n") := by
  have ht := ecsTemp_cold_warm dist (fun k => storedMarker fmt 5 coldStation (mapInfo0 k))
    mapInfo0 rfl hd
  refine ⟨localizedMeanSpec_cold_warm dist hd, ht, ?_, ?_⟩
  · rw [main_cold_warm fmt dist mapInfo0 ECS0 hfmt h0, ht]
  · show some (infoWindowStatement 1
      (escapeSpec (cstr (storedEcs fmt 0 ECS0).markerText) ++ [NUL])) = _
    rw [storedEcs_text_zero fmt _ h0]
    decide

/-- Witness for the evaluation of C6, with the distance that is zero everywhere. -/
theorem ecsTemp_counts_first_t_records_witness :
    localizedMeanSpec (fun _ _ => 0) [coldStation, warmStation] = 5 ∧
    ecsTemp (fun _ _ => 0) (readStations [coldStation, warmStation])
      (finalMapInfo 1 (fun _ => storedMarker zeroFormat 5 coldStation sampleMarker)
        (fun _ => sampleMarker)) = 0 :=
  ⟨(ecsTemp_counts_first_t_records zeroFormat (fun _ _ => 0) (fun _ => sampleMarker)
      sampleMarker zeroFormat_bounded rfl (by norm_num)).1,
   (ecsTemp_counts_first_t_records zeroFormat (fun _ _ => 0) (fun _ => sampleMarker)
      sampleMarker zeroFormat_bounded rfl (by norm_num)).2.1⟩

/-! ### The size of the marker text -/

theorem stationText_sample (fmt : FloatFormat) (h : fmt.f2 15.5 = "15.50") :
    stationText fmt sampleStation =
      "<b>UVic Science Building</b>: 15.50 degrees (10:30 11/14/2013)" := by
  show String.mk (cstr (cbuf (boldNameText (cbuf (getStationName 143))))) ++ ": " ++
    fmt.f2 15.5 ++ " degrees " ++ String.mk (cstr (cbuf (dateStampText sampleStation))) = _
  rw [h]
  decide

theorem stationMarker_sample (fmt : FloatFormat) (avg : FloatVal) (slot : MapMarker)
    (h : fmt.f2 15.5 = "15.50") :
    stationMarker fmt avg sampleStation slot = .error (.overflow "textInMarker") := by
  have ht : ¬ (stationText fmt sampleStation).length + 1 ≤ 50 := by
    rw [stationText_sample fmt h]
    decide
  rw [stationMarker_eq fmt avg sampleStation slot (by decide), if_neg ht]

/-- The text of a record of station 117 is longer than 49 characters. -/
theorem stationText_117 (fmt : FloatFormat) (st : StationData) (hid : st.stationID = 117) :
    49 < (stationText fmt st).length := by
  have e : stationText fmt st =
      String.mk (cstr (cbuf (boldNameText (cbuf (getStationName st.stationID))))) ++ ": " ++
        fmt.f2 st.temperature ++ " degrees " ++ String.mk (cstr (cbuf (dateStampText st))) := rfl
  have hb : cstr (cbuf (boldNameText (cbuf (getStationName 117)))) =
      "<b>Salt Spring Elementary School &amp;Saltspring Middle School</b>".toList := by
    decide
  rw [e, hid, hb]
  simp only [String.length_append]
  have e1 : (String.mk
      "<b>Salt Spring Elementary School &amp;Saltspring Middle School</b>".toList).length = 66 := by
    decide
  omega

/-- C13 on the code: for the line `143 15.5 2013 11 14 10 30 48.46 -123.31 1`,
with `15.50` printed for the temperature, the text `main` formats into
`textInMarker` is `<b>UVic Science Building</b>: 15.50 degrees (10:30
11/14/2013)`, 62 characters, more than the 49 the array of 50 bytes holds with
its terminator, so that the store of the marker runs past the end of
`textInMarker`; and for station 117 the text is longer than 49 characters
whatever the temperature, the time stamp and the float format are, and the
store of the marker runs past the end of one of the local arrays. -/
theorem textInMarker_exceeds_array (fmt : FloatFormat) (avg : FloatVal) (slot : MapMarker)
    (h : fmt.f2 15.5 = "15.50") :
    stationText fmt sampleStation =
      "<b>UVic Science Building</b>: 15.50 degrees (10:30 11/14/2013)" ∧
    "<b>UVic Science Building</b>: 15.50 degrees (10:30 11/14/2013)".length = 62 ∧
    ¬ (stationText fmt sampleStation).length ≤ 49 ∧
    stationMarker fmt avg sampleStation slot = .error (.overflow "textInMarker") ∧
    (∀ st : StationData, st.stationID = 117 →
      49 < (stationText fmt st).length ∧
      ∃ array, stationMarker fmt avg st slot = .error (.overflow array)) := by
  refine ⟨stationText_sample fmt h, by decide, ?_, stationMarker_sample fmt avg slot h, ?_⟩
  · rw [stationText_sample fmt h]
    decide
  · intro st hid
    have hlen := stationText_117 fmt st hid
    refine ⟨hlen, ?_⟩
    by_cases hd : (dateStampText st).length + 1 ≤ 1000
    · refine ⟨"textInMarker", ?_⟩
      rw [stationMarker_eq fmt avg st slot hd, if_neg (by omega)]
    · refine ⟨"dateStamp", ?_⟩
      have hn : (cstr (cbuf (getStationName st.stationID))).length + 1 ≤ 100 := by
        have := stationName_length st.stationID
        omega
      unfold stationMarker
      simp only [strcpyInto_eq, sprintf_eq, if_pos hn, if_neg hd]

/-- Witness for the evaluation of C13, with a format that prints `15.50`. -/
theorem textInMarker_exceeds_array_witness :
    ¬ (stationText sampleFormat sampleStation).length ≤ 49 ∧
    stationMarker sampleFormat 15.5 sampleStation sampleMarker =
      .error (.overflow "textInMarker") :=
  ⟨(textInMarker_exceeds_array sampleFormat 15.5 sampleMarker rfl).2.2.1,
   (textInMarker_exceeds_array sampleFormat 15.5 sampleMarker rfl).2.2.2.1⟩

/-! ### Marker numbers -/

theorem decimal_foldl (s : List Char) (a : Nat) :
    s.foldl (fun acc c => 10 * acc + (c.toNat - 48)) a = a * 10 ^ s.length + decimalValue s := by
  induction s generalizing a with
  | nil => simp [decimalValue]
  | cons c s ih =>
    unfold decimalValue
    rw [List.foldl_cons, List.foldl_cons, ih, ih (10 * 0 + (c.toNat - 48)), List.length_cons]
    ring

theorem digitChar_value (k : Nat) (h : k < 10) : (Nat.digitChar k).toNat - 48 = k := by
  interval_cases k <;> rfl

theorem digitChar_isDigit (k : Nat) (h : k < 10) : (Nat.digitChar k).isDigit = true := by
  interval_cases k <;> rfl

theorem decimalValue_toDigitsCore (fuel n : Nat) (ds : List Char) (h : n < fuel) :
    decimalValue (Nat.toDigitsCore 10 fuel n ds) = n * 10 ^ ds.length + decimalValue ds := by
  induction fuel generalizing n ds with
  | zero => omega
  | succ fuel ih =>
    have hd := digitChar_value (n % 10) (Nat.mod_lt _ (by decide))
    have hc : decimalValue (Nat.digitChar (n % 10) :: ds) =
        n % 10 * 10 ^ ds.length + decimalValue ds := by
      unfold decimalValue
      rw [List.foldl_cons, decimal_foldl, hd]
      simp [decimalValue]
    unfold Nat.toDigitsCore
    by_cases h0 : n / 10 = 0
    · simp only [h0, if_true]
      have hn : n % 10 = n := by omega
      rw [hc, hn]
    · simp only [h0, if_false]
      rw [ih (n / 10) _ (by omega), hc, List.length_cons, pow_succ]
      have e : n * 10 ^ ds.length = (10 * (n / 10) + n % 10) * 10 ^ ds.length := by
        rw [Nat.div_add_mod]
      rw [e]
      ring

theorem isDigit_toDigitsCore (fuel n : Nat) (ds : List Char)
    (h : ∀ x ∈ ds, x.isDigit = true) :
    ∀ x ∈ Nat.toDigitsCore 10 fuel n ds, x.isDigit = true := by
  induction fuel generalizing n ds with
  | zero => exact h
  | succ fuel ih =>
    have hd := digitChar_isDigit (n % 10) (Nat.mod_lt _ (by decide))
    have hc : ∀ x ∈ Nat.digitChar (n % 10) :: ds, x.isDigit = true := by
      intro x hx
      rcases List.mem_cons.mp hx with e | e
      · rw [e]
        exact hd
      · exact h x e
    unfold Nat.toDigitsCore
    by_cases h0 : n / 10 = 0
    · simp only [h0, if_true]
      exact hc
    · simp only [h0, if_false]
      exact ih (n / 10) _ hc

/-- The decimal text of a number denotes the number. -/
theorem decimalValue_toString (n : Nat) : decimalValue (toString n).toList = n := by
  show decimalValue (Nat.toDigitsCore 10 (n + 1) n []) = n
  rw [decimalValue_toDigitsCore _ _ _ (by omega)]
  simp [decimalValue]

/-- The decimal text of a number is made of digits. -/
theorem isDigit_toString (n : Nat) : ∀ x ∈ (toString n).toList, x.isDigit = true := by
  show ∀ x ∈ Nat.toDigitsCore 10 (n + 1) n [], x.isDigit = true
  exact isDigit_toDigitsCore _ _ _ (by simp)

/-- The decimal texts of two different numbers are different. -/
theorem toString_injective (a b : Nat) (h : (toString a).toList = (toString b).toList) :
    a = b := by
  rw [← decimalValue_toString a, ← decimalValue_toString b, h]

/-- Two strings of digits that are each followed by the same character, not a
digit, at the head of equal texts are equal. -/
theorem digits_before_eq (c : Char) (hc : c.isDigit = false) (d1 d2 r1 r2 : List Char)
    (h1 : ∀ x ∈ d1, x.isDigit = true) (h2 : ∀ x ∈ d2, x.isDigit = true)
    (h : d1 ++ c :: r1 = d2 ++ c :: r2) : d1 = d2 := by
  induction d1 generalizing d2 with
  | nil =>
    cases d2 with
    | nil => rfl
    | cons y d2 =>
      simp only [List.nil_append, List.cons_append, List.cons.injEq] at h
      have := h2 y (List.mem_cons_self _ _)
      rw [← h.1, hc] at this
      cases this
  | cons x d1 ih =>
    cases d2 with
    | nil =>
      simp only [List.nil_append, List.cons_append, List.cons.injEq] at h
      have := h1 x (List.mem_cons_self _ _)
      rw [h.1, hc] at this
      cases this
    | cons y d2 =>
      simp only [List.cons_append, List.cons.injEq] at h
      rw [h.1, ih d2 (fun z hz => h1 z (List.mem_cons_of_mem _ hz))
        (fun z hz => h2 z (List.mem_cons_of_mem _ hz)) h.2]

/-- Info windows of different numbers differ in their variable. -/
theorem infoWindowOpen_injective (a b : Nat) (x y : List Char)
    (h : infoWindowOpen a ++ x = infoWindowOpen b ++ y) : a = b := by
  unfold infoWindowOpen at h
  simp only [List.append_assoc] at h
  have h2 := List.append_cancel_left h
  exact toString_injective a b
    (digits_before_eq ' ' (by decide) _ _ _ _ (isDigit_toString a) (isDigit_toString b) h2)

/-- Markers of different numbers differ in their variable. -/
theorem markerOpen_injective (fmt : FloatFormat) (a b : Nat) (la lb : GeographicPoint)
    (x y : List Char) (h : markerOpen fmt a la ++ x = markerOpen fmt b lb ++ y) : a = b := by
  unfold markerOpen at h
  simp only [List.append_assoc] at h
  have h2 := List.append_cancel_left h
  exact toString_injective a b
    (digits_before_eq ' ' (by decide) _ _ _ _ (isDigit_toString a) (isDigit_toString b) h2)

/-- Listeners of different numbers differ. -/
theorem listenerChars_injective (a b : Nat) (h : listenerChars a = listenerChars b) : a = b := by
  unfold listenerChars at h
  simp only [List.append_assoc] at h
  have h2 := List.append_cancel_left h
  exact toString_injective a b
    (digits_before_eq ',' (by decide) _ _ _ _ (isDigit_toString a) (isDigit_toString b) h2)

theorem writePoint_invalid_type (fmt : FloatFormat) (out : FILE) (m : MapMarker) (n : Nat)
    (hname : strnlen2 m.markerName 100 ≠ 100) (htext : strnlen2 m.markerText 1000 ≠ 1000)
    (hty : m.type < 0 ∨ 4 < m.type) :
    writePoint fmt (some out) (some m) n = .error "writePoint error: invalid marker type\n" := by
  have hty' : m.type < 0 ∨ m.type ≥ NUM_MARKER_TYPES := by
    simp only [NUM_MARKER_TYPES]; omega
  simp [writePoint, hname, htext, hty']

/-- A run of `main` whose first iteration of the marker loop ends the program. -/
theorem main_abort_first (fmt : FloatFormat) (dist : GeographicPoint → GeographicPoint → ℚ)
    (mapInfo0 : Nat → MapMarker) (ECS0 : MapMarker) (lines : List StationData) (out0 : FILE)
    (a : Abort) (ht : 0 < (readStations lines).t)
    (h : markerStep fmt (readStations lines)
      { mapInfo := mapInfo0, out := out0 ++ prologueText, numMarkers := 0 } 0 = .error a) :
    main fmt dist mapInfo0 ECS0 (some lines) (some out0) = .error a := by
  have hr : List.range (readStations lines).t =
      0 :: List.map Nat.succ (List.range ((readStations lines).t - 1)) := by
    have e : (readStations lines).t = ((readStations lines).t - 1) + 1 := by omega
    rw [e, List.range_succ_eq_map]
    simp
  have hloop : markerLoop fmt (readStations lines)
      { mapInfo := mapInfo0, out := out0 ++ prologueText, numMarkers := 0 } = .error a := by
    unfold markerLoop
    rw [hr, List.foldlM_cons, h]
    rfl
  simp only [main, writePrologue, hloop]

theorem readStations_single (st : StationData) (h : st.temperature ≠ 0) :
    (readStations [st]).t = 1 ∧ (readStations [st]).totalTemp = 0 + st.temperature ∧
    (readStations [st]).stationInfo 0 = st := by
  have h0 : (0 : Nat) < MAX_STATIONS := by decide
  unfold readStations
  rw [readLoop_cons _ _ _ _ h0, readLoop_nil]
  refine ⟨?_, ?_, ?_⟩
  · simp [initialReadState, h]
  · simp [initialReadState]
  · simp [Function.update]

theorem main_sample_overflow (fmt : FloatFormat) (dist : GeographicPoint → GeographicPoint → ℚ)
    (mapInfo0 : Nat → MapMarker) (ECS0 : MapMarker) (h : fmt.f2 15.5 = "15.50") :
    main fmt dist mapInfo0 ECS0 (some [sampleStation]) (some []) =
      .error (.overflow "textInMarker") := by
  have hne : sampleStation.temperature ≠ 0 := by
    show (15.5 : FloatVal) ≠ 0
    rw [FloatVal.ofScientific_def, FloatVal.zero_def]
    norm_num
  obtain ⟨h1, _, h3⟩ := readStations_single sampleStation hne
  apply main_abort_first fmt dist mapInfo0 ECS0 [sampleStation] [] _ (by omega)
  apply markerStep_abort
  rw [h3]
  exact stationMarker_sample fmt _ _ h

theorem stationText_nan (fmt : FloatFormat) (h : fmt.f2 FloatVal.nan = "nan") :
    stationText fmt nanStation = "<b>Longacre</b>: nan degrees (9:5 1/5/2013)" := by
  show String.mk (cstr (cbuf (boldNameText (cbuf (getStationName 200))))) ++ ": " ++
    fmt.f2 FloatVal.nan ++ " degrees " ++ String.mk (cstr (cbuf (dateStampText nanStation))) = _
  rw [h]
  decide

theorem selectColour_nan (avg : FloatVal) (type0 : Int) :
    selectColour FloatVal.nan avg type0 = (type0, 0) := by
  have e : FloatVal.nan - avg = FloatVal.nan := by
    cases avg <;> rfl
  have l1 : ∀ x : FloatVal, ¬ FloatVal.nan < x := by
    intro x hx
    cases x <;> cases hx
  have l2 : ∀ x : FloatVal, ¬ x ≤ FloatVal.nan := by
    intro x hx
    cases x <;> cases hx
  simp [selectColour, e, l1, l2]

theorem main_nan_exit (fmt : FloatFormat) (dist : GeographicPoint → GeographicPoint → ℚ)
    (mapInfo0 : Nat → MapMarker) (ECS0 : MapMarker) (h : fmt.f2 FloatVal.nan = "nan")
    (hty : (mapInfo0 0).type < 0 ∨ 4 < (mapInfo0 0).type) :
    main fmt dist mapInfo0 ECS0 (some [nanStation]) (some []) =
      .error (.exit "writePoint error: invalid marker type\n") := by
  have hne : nanStation.temperature ≠ 0 := by
    show FloatVal.nan ≠ 0
    rw [FloatVal.zero_def]
    exact fun e => FloatVal.noConfusion e
  obtain ⟨h1, _, h3⟩ := readStations_single nanStation hne
  have ht : (stationText fmt nanStation).length + 1 ≤ 50 := by
    rw [stationText_nan fmt h]
    decide
  have hm : stationMarker fmt (avgTemp (readStations [nanStation])) nanStation (mapInfo0 0) =
      .ok (storedMarker fmt (avgTemp (readStations [nanStation])) nanStation (mapInfo0 0)) := by
    rw [stationMarker_eq fmt _ nanStation _ (by decide), if_pos ht]
  obtain ⟨t1, t2⟩ := storedMarker_terminated fmt (avgTemp (readStations [nanStation]))
    nanStation (mapInfo0 0) ht
  have hsel : (storedMarker fmt (avgTemp (readStations [nanStation])) nanStation
      (mapInfo0 0)).type = (mapInfo0 0).type := by
    show (selectColour FloatVal.nan _ _).1 = _
    rw [selectColour_nan]
  apply main_abort_first fmt dist mapInfo0 ECS0 [nanStation] [] _ (by omega)
  unfold markerStep
  simp only [h3, hm]
  rw [writePoint_invalid_type fmt _ _ _ t1 t2 (by rw [hsel]; exact hty)]

/-- The output of `main` when the text of each of the first `t` records fits
`textInMarker`, the type stored for it is one of the five types, and the text
of the marker `ECS` fits `ecsBody`. -/
theorem main_ok (fmt : FloatFormat) (dist : GeographicPoint → GeographicPoint → ℚ)
    (mapInfo0 : Nat → MapMarker) (ECS0 : MapMarker) (lines : List StationData) (out0 : FILE)
    (hk : ∀ k, k < (readStations lines).t →
      (dateStampText ((readStations lines).stationInfo k)).length + 1 ≤ 1000 ∧
      (stationText fmt ((readStations lines).stationInfo k)).length + 1 ≤ 50 ∧
      0 ≤ (selectColour ((readStations lines).stationInfo k).temperature
        (avgTemp (readStations lines)) (mapInfo0 k).type).1 ∧
      (selectColour ((readStations lines).stationInfo k).temperature
        (avgTemp (readStations lines)) (mapInfo0 k).type).1 < 5)
    (he : (ecsBodyText fmt (ecsTemp dist (readStations lines)
      (finalMapInfo (readStations lines).t
        (fun k => storedMarker fmt (avgTemp (readStations lines))
          ((readStations lines).stationInfo k) (mapInfo0 k)) mapInfo0))).length + 1 ≤ 100) :
    main fmt dist mapInfo0 ECS0 (some lines) (some out0) =
      .ok (out0 ++ prologueText ++
        markerBlocks fmt 0 ((List.range (readStations lines).t).map
          (fun k => storedMarker fmt (avgTemp (readStations lines))
            ((readStations lines).stationInfo k) (mapInfo0 k))) ++
        markerBlock fmt (readStations lines).t
          (storedEcs fmt (ecsTemp dist (readStations lines)
            (finalMapInfo (readStations lines).t
              (fun k => storedMarker fmt (avgTemp (readStations lines))
                ((readStations lines).stationInfo k) (mapInfo0 k)) mapInfo0)) ECS0) ++
        epilogueText) := by
  apply main_eq fmt dist mapInfo0 ECS0 lines out0
  · intro k hlt
    obtain ⟨h1, h2, h3, h4⟩ := hk k hlt
    obtain ⟨t1, t2⟩ := storedMarker_terminated fmt (avgTemp (readStations lines))
      ((readStations lines).stationInfo k) (mapInfo0 k) h2
    exact ⟨by rw [stationMarker_eq _ _ _ _ h1, if_pos h2], t1, t2, h3, h4⟩
  · rw [ecsMarker_eq, if_pos he]
  · exact storedEcs_valid fmt _ ECS0 he

/-- C10 on the code: for the line `143 15.5 2013 11 14 10 30 48.46 -123.31 1`,
with `15.50` printed for the temperature, one station is counted and `main`
ends at the store past the end of `textInMarker`, before any marker is written,
where the claim has two markers numbered 0 and 1; and for the line `200 nan
2013 1 5 9 5 48.46104 -123.31153 1`, with `nan` printed for the temperature and
a content of `mapInfo[0].type` that is none of the five types, `main` ends in
the diagnostic of `writePoint` for an invalid type.  What holds: a call of
`writePoint` that returns with the counter `n` appends three statements, the
info window `iw` followed by the decimal text of `n`, the marker `marker`
followed by it, and the listener that names both, and leaves the counter at
`n + 1`; statements of different numbers differ in these names; a render pass
that starts with the counter at zero writes the marker at position `k` with the
number `k`, at the positions `3 * k`, `3 * k + 1` and `3 * k + 2`; and when the
text of each of the first `t` records fits `textInMarker`, the type stored for
it is one of the five types and the text of the marker `ECS` fits `ecsBody`,
`main` writes after the prologue the `t` station markers with the numbers 0 to
`t - 1` and then, last before the epilogue, one marker with the number `t`,
named "ECS Building", of type PURPLE, at the ECS building. -/
theorem main_marker_numbers (fmt : FloatFormat) (dist : GeographicPoint → GeographicPoint → ℚ)
    (mapInfo0 : Nat → MapMarker) (ECS0 : MapMarker) (h : fmt.f2 15.5 = "15.50") :
    ((readStations [sampleStation]).t = 1 ∧
      main fmt dist mapInfo0 ECS0 (some [sampleStation]) (some []) =
        .error (.overflow "textInMarker")) ∧
    (fmt.f2 FloatVal.nan = "nan" → ((mapInfo0 0).type < 0 ∨ 4 < (mapInfo0 0).type) →
      (readStations [nanStation]).t = 1 ∧
      main fmt dist mapInfo0 ECS0 (some [nanStation]) (some []) =
        .error (.exit "writePoint error: invalid marker type\n")) ∧
    (∀ out m n r, writePoint fmt (some out) (some m) n = .ok r →
      ∃ s1 s2 s3 path, r = (out ++ [s1, s2, s3], n + 1) ∧
        MarkerPaths m.type = some path ∧
        s1.toList = infoWindowOpen n ++ escapeSpec (cstr m.markerText) ++ infoWindowClose ∧
        s2.toList = markerOpen fmt n m.location ++ escapeSpec (cstr m.markerName) ++
          markerClose path ∧
        s3.toList = listenerChars n) ∧
    ((∀ (a b : Nat) (x y : List Char),
        infoWindowOpen a ++ x = infoWindowOpen b ++ y → a = b) ∧
      (∀ (a b : Nat) (la lb : GeographicPoint) (x y : List Char),
        markerOpen fmt a la ++ x = markerOpen fmt b lb ++ y → a = b) ∧
      (∀ a b : Nat, listenerChars a = listenerChars b → a = b)) ∧
    (∀ markers out r, renderPass fmt markers (out, 0) = .ok r →
      r = (out ++ markerBlocks fmt 0 markers, markers.length)) ∧
    (∀ markers out, (∀ m ∈ markers, validMarker m) →
      renderPass fmt markers (out, 0) = .ok (out ++ markerBlocks fmt 0 markers, markers.length)) ∧
    (∀ (markers : List MapMarker) (k : Nat) (m : MapMarker), markers[k]? = some m →
      (markerBlocks fmt 0 markers).length = 3 * markers.length ∧
      (markerBlocks fmt 0 markers)[3 * k]? =
        some (infoWindowStatement k (escapeSpec (cstr m.markerText) ++ [NUL])) ∧
      (markerBlocks fmt 0 markers)[3 * k + 1]? =
        some (markerStatement fmt k m.location (escapeSpec (cstr m.markerName) ++ [NUL])
          ((MarkerPaths m.type).getD "")) ∧
      (markerBlocks fmt 0 markers)[3 * k + 2]? = some (listenerStatement k)) ∧
    (∀ (lines : List StationData) (out0 : FILE),
      (∀ k, k < (readStations lines).t →
        (dateStampText ((readStations lines).stationInfo k)).length + 1 ≤ 1000 ∧
        (stationText fmt ((readStations lines).stationInfo k)).length + 1 ≤ 50 ∧
        0 ≤ (selectColour ((readStations lines).stationInfo k).temperature
          (avgTemp (readStations lines)) (mapInfo0 k).type).1 ∧
        (selectColour ((readStations lines).stationInfo k).temperature
          (avgTemp (readStations lines)) (mapInfo0 k).type).1 < 5) →
      (ecsBodyText fmt (ecsTemp dist (readStations lines)
        (finalMapInfo (readStations lines).t
          (fun k => storedMarker fmt (avgTemp (readStations lines))
            ((readStations lines).stationInfo k) (mapInfo0 k)) mapInfo0))).length + 1 ≤ 100 →
      main fmt dist mapInfo0 ECS0 (some lines) (some out0) =
        .ok (out0 ++ prologueText ++
          markerBlocks fmt 0 ((List.range (readStations lines).t).map
            (fun k => storedMarker fmt (avgTemp (readStations lines))
              ((readStations lines).stationInfo k) (mapInfo0 k))) ++
          markerBlock fmt (readStations lines).t
            (storedEcs fmt (ecsTemp dist (readStations lines)
              (finalMapInfo (readStations lines).t
                (fun k => storedMarker fmt (avgTemp (readStations lines))
                  ((readStations lines).stationInfo k) (mapInfo0 k)) mapInfo0)) ECS0) ++
          epilogueText)) ∧
    (∀ temp, cstr (storedEcs fmt temp ECS0).markerName = "ECS Building".toList ∧
      (storedEcs fmt temp ECS0).type = MARKER_PURPLE ∧
      (storedEcs fmt temp ECS0).location =
        { latitude := ECS_LATITUDE, longitude := ECS_LONGITUDE } ∧
      MarkerPaths MARKER_PURPLE =
        some "http://maps.google.com/mapfiles/ms/icons/purple-dot.png") := by
  have hne : sampleStation.temperature ≠ 0 := by
    show (15.5 : FloatVal) ≠ 0
    rw [FloatVal.ofScientific_def, FloatVal.zero_def]
    norm_num
  have hnan : nanStation.temperature ≠ 0 := by
    show FloatVal.nan ≠ 0
    rw [FloatVal.zero_def]
    exact fun e => FloatVal.noConfusion e
  refine ⟨⟨(readStations_single sampleStation hne).1,
      main_sample_overflow fmt dist mapInfo0 ECS0 h⟩, ?_, ?_, ?_, ?_, ?_, ?_, ?_, ?_⟩
  · intro h2 hty
    exact ⟨(readStations_single nanStation hnan).1, main_nan_exit fmt dist mapInfo0 ECS0 h2 hty⟩
  · intro out m n r hr
    exact writePoint_chars fmt out m n r hr
  · exact ⟨infoWindowOpen_injective, markerOpen_injective fmt, listenerChars_injective⟩
  · intro markers out r hr
    simpa using renderPass_eq_of_ok fmt markers out 0 r hr
  · intro markers out hv
    simpa using renderPass_ok fmt markers out 0 hv
  · intro markers k m hm
    have h0 := markerBlocks_getElem fmt 0 markers k m hm 0 (by omega)
    have h1 := markerBlocks_getElem fmt 0 markers k m hm 1 (by omega)
    have h2 := markerBlocks_getElem fmt 0 markers k m hm 2 (by omega)
    simp only [zero_add, add_zero] at h0 h1 h2
    exact ⟨markerBlocks_length fmt 0 markers, by rw [h0]; rfl, by rw [h1]; rfl, by rw [h2]; rfl⟩
  · intro lines out0 hk he
    exact main_ok fmt dist mapInfo0 ECS0 lines out0 hk he
  · intro temp
    refine ⟨?_, rfl, rfl, rfl⟩
    show cstr (strcpy ECS0.markerName (cbuf "ECS Building")) = _
    rw [cstr_strcpy]
    decide

theorem nanFormat_length (x : FloatVal) : (nanFormat.f2 x).length ≤ 5 := by
  cases x with
  | num q =>
    show ("15.50" : String).length ≤ 5
    decide
  | posInf => decide
  | negInf => decide
  | nan => decide

/-- Witness for the evaluation of C10, with a format that prints `15.50` for a
number and `nan` for a nan: the line `143 15.5 2013 11 14 10 30 48.46 -123.31
1` ends the run at `textInMarker`, the line `200 nan 2013 1 5 9 5 48.46104
-123.31153 1` ends it in `writePoint` when the type slot holds 7, and the lines
`200 0 2013 1 5 9 5 48.46104 -123.31153 1` and `41 5.0 2013 1 5 9 5 48.46104
-123.31153 1`, whose texts fit, give the document. -/
theorem main_marker_numbers_witness :
    main nanFormat (fun _ _ => 0) (fun _ => garbageMarker) sampleMarker
      (some [sampleStation]) (some []) = .error (.overflow "textInMarker") ∧
    main nanFormat (fun _ _ => 0) (fun _ => garbageMarker) sampleMarker
      (some [nanStation]) (some []) =
        .error (.exit "writePoint error: invalid marker type\n") ∧
    main nanFormat (fun _ _ => 0) (fun _ => garbageMarker) sampleMarker
      (some [coldStation, warmStation]) (some []) =
        .ok ([] ++ prologueText ++
          markerBlocks nanFormat 0 ((List.range (readStations [coldStation, warmStation]).t).map
            (fun k => storedMarker nanFormat (avgTemp (readStations [coldStation, warmStation]))
              ((readStations [coldStation, warmStation]).stationInfo k) garbageMarker)) ++
          markerBlock nanFormat (readStations [coldStation, warmStation]).t
            (storedEcs nanFormat (ecsTemp (fun _ _ => 0) (readStations [coldStation, warmStation])
              (finalMapInfo (readStations [coldStation, warmStation]).t
                (fun k => storedMarker nanFormat
                  (avgTemp (readStations [coldStation, warmStation]))
                  ((readStations [coldStation, warmStation]).stationInfo k) garbageMarker)
                (fun _ => garbageMarker))) sampleMarker) ++
          epilogueText) :=
  ⟨(main_marker_numbers nanFormat (fun _ _ => 0) (fun _ => garbageMarker) sampleMarker rfl).1.2,
   ((main_marker_numbers nanFormat (fun _ _ => 0) (fun _ => garbageMarker) sampleMarker
      rfl).2.1 rfl (by decide)).2,
   (main_marker_numbers nanFormat (fun _ _ => 0) (fun _ => garbageMarker) sampleMarker
      rfl).2.2.2.2.2.2.2.1 [coldStation, warmStation] []
     (by
       intro k hk
       rw [readStations_cold_warm.1] at hk
       have hk0 : k = 0 := by omega
       subst hk0
       rw [readStations_cold_warm.2.2.1, avgTemp_cold_warm]
       refine ⟨by decide, by decide, ?_, ?_⟩
       · show 0 ≤ (selectColour 0 5 garbageMarker.type).1
         rw [selectColour_cold]
         decide
       · show (selectColour 0 5 garbageMarker.type).1 < 5
         rw [selectColour_cold]
         decide)
     (by
       rw [ecsBodyText_length]
       have := nanFormat_length (ecsTemp (fun _ _ => 0) (readStations [coldStation, warmStation])
         (finalMapInfo (readStations [coldStation, warmStation]).t
           (fun k => storedMarker nanFormat (avgTemp (readStations [coldStation, warmStation]))
             ((readStations [coldStation, warmStation]).stationInfo k) garbageMarker)
           (fun _ => garbageMarker)))
       omega)⟩

/-! ### The distance on the sphere -/

theorem sin_half_abs_sq (x : ℝ) : Real.sin (|x| / 2) ^ 2 = (1 - Real.cos x) / 2 := by
  have h1 := Real.cos_sq (|x| / 2)
  have h2 : 2 * (|x| / 2) = |x| := by ring
  rw [h2, Real.cos_abs] at h1
  rw [Real.sin_sq, h1]
  ring

/-- The number under the square root of `surfaceDistance` lies between 0 and
1, whatever the coordinates. -/
theorem haversine_range (lat1 lon1 lat2 lon2 : ℝ) :
    0 ≤ haversine lat1 lon1 lat2 lon2 ∧ haversine lat1 lon1 lat2 lon2 ≤ 1 := by
  have hs0 : 0 ≤ Real.sin (|lon1 - lon2| / 2) ^ 2 := sq_nonneg _
  have hs1 : Real.sin (|lon1 - lon2| / 2) ^ 2 ≤ 1 := Real.sin_sq_le_one _
  have hm := Real.cos_sub lat1 lat2
  have hp := Real.cos_add lat1 lat2
  have hm1 := Real.cos_le_one (lat1 - lat2)
  have hm2 := Real.neg_one_le_cos (lat1 - lat2)
  have hp1 := Real.cos_le_one (lat1 + lat2)
  have hp2 := Real.neg_one_le_cos (lat1 + lat2)
  have e : haversine lat1 lon1 lat2 lon2 =
      (1 - Real.sin (|lon1 - lon2| / 2) ^ 2) * ((1 - Real.cos (lat1 - lat2)) / 2) +
        Real.sin (|lon1 - lon2| / 2) ^ 2 * ((1 + Real.cos (lat1 + lat2)) / 2) := by
    unfold haversine
    rw [sin_half_abs_sq, hm, hp]
    ring
  have e' : 1 - haversine lat1 lon1 lat2 lon2 =
      (1 - Real.sin (|lon1 - lon2| / 2) ^ 2) * ((1 + Real.cos (lat1 - lat2)) / 2) +
        Real.sin (|lon1 - lon2| / 2) ^ 2 * ((1 - Real.cos (lat1 + lat2)) / 2) := by
    rw [e]
    ring
  constructor
  · rw [e]
    have t1 : 0 ≤ (1 - Real.sin (|lon1 - lon2| / 2) ^ 2) * ((1 - Real.cos (lat1 - lat2)) / 2) :=
      mul_nonneg (by linarith) (by linarith)
    have t2 : 0 ≤ Real.sin (|lon1 - lon2| / 2) ^ 2 * ((1 + Real.cos (lat1 + lat2)) / 2) :=
      mul_nonneg hs0 (by linarith)
    linarith
  · have t1 : 0 ≤ (1 - Real.sin (|lon1 - lon2| / 2) ^ 2) * ((1 + Real.cos (lat1 - lat2)) / 2) :=
      mul_nonneg (by linarith) (by linarith)
    have t2 : 0 ≤ Real.sin (|lon1 - lon2| / 2) ^ 2 * ((1 - Real.cos (lat1 + lat2)) / 2) :=
      mul_nonneg hs0 (by linarith)
    linarith

/-- The value of `surfaceDistance` on two points. -/
theorem surfaceDistance_some (A B : RealPoint) :
    surfaceDistance (some A) (some B) =
      .ok (2 * 6371 * Real.arcsin (Real.sqrt
        (haversine (radians A.latitude) (radians A.longitude)
          (radians B.latitude) (radians B.longitude)))) := by
  have h180 : (180.0 : ℝ) = 180 := by norm_num
  simp only [surfaceDistance, haversine, radians, h180]
  congr 1
  ring_nf

theorem haversine_comm (lat1 lon1 lat2 lon2 : ℝ) :
    haversine lat1 lon1 lat2 lon2 = haversine lat2 lon2 lat1 lon1 := by
  unfold haversine
  rw [abs_sub_comm lat1 lat2, abs_sub_comm lon1 lon2]
  ring

theorem haversine_self (lat lon : ℝ) : haversine lat lon lat lon = 0 := by
  simp [haversine]

/-- C11: `surfaceDistance`, evaluated over the reals, returns a distance for
the points `A`, `B` and the same distance for the points `B`, `A`. -/
theorem surfaceDistance_symm (A B : RealPoint) :
    surfaceDistance (some A) (some B) = surfaceDistance (some B) (some A) ∧
    ∃ d : ℝ, surfaceDistance (some A) (some B) = .ok d ∧
      surfaceDistance (some B) (some A) = .ok d := by
  constructor
  · rw [surfaceDistance_some, surfaceDistance_some, haversine_comm]
  · refine ⟨_, surfaceDistance_some A B, ?_⟩
    rw [surfaceDistance_some, haversine_comm]

/-- C12: `surfaceDistance`, evaluated over the reals, is `2 * 6371 *
asin (sqrt h)` with `h = sin^2 (|lat1 - lat2| / 2) + cos lat1 * cos lat2 *
sin^2 (|lon1 - lon2| / 2)` on the coordinates converted to radians; `h` lies
between 0 and 1, so the square root and the arc sine are taken inside their
domains; the distance from a point to itself is 0 and every distance is at
least 0. -/
theorem surfaceDistance_self_nonneg (A B : RealPoint) :
    surfaceDistance (some A) (some A) = .ok 0 ∧
    (∃ d : ℝ, surfaceDistance (some A) (some B) = .ok d ∧ 0 ≤ d ∧
      d = 2 * 6371 * Real.arcsin (Real.sqrt
        (Real.sin (|A.latitude * Real.pi / 180 - B.latitude * Real.pi / 180| / 2) ^ 2 +
          Real.cos (A.latitude * Real.pi / 180) * Real.cos (B.latitude * Real.pi / 180) *
            Real.sin (|A.longitude * Real.pi / 180 - B.longitude * Real.pi / 180| / 2) ^ 2))) ∧
    0 ≤ haversine (radians A.latitude) (radians A.longitude)
      (radians B.latitude) (radians B.longitude) ∧
    haversine (radians A.latitude) (radians A.longitude)
      (radians B.latitude) (radians B.longitude) ≤ 1 := by
  refine ⟨?_, ?_, (haversine_range _ _ _ _).1, (haversine_range _ _ _ _).2⟩
  · rw [surfaceDistance_some, haversine_self]
    simp
  · refine ⟨_, surfaceDistance_some A B, ?_, rfl⟩
    have h := Real.arcsin_nonneg.2 (Real.sqrt_nonneg
      (haversine (radians A.latitude) (radians A.longitude)
        (radians B.latitude) (radians B.longitude)))
    linarith


/-! ### The size of the escaped strings -/

theorem escapeSpec_length (s : List Char) :
    (escapeSpec s).length = s.length + s.count QUOTE := by
  induction s with
  | nil => rfl
  | cons c s ih =>
    rw [escapeSpec_cons, List.length_append, ih]
    by_cases hq : c = QUOTE
    · subst hq
      simp only [if_true, List.length_cons, List.length_nil, List.count_cons_self]
      omega
    · have hq' : (c == QUOTE) = false := by simpa using hq
      simp only [hq, if_false, List.length_cons, List.length_nil, List.count_cons, hq']
      simp
      omega

theorem escapeSpec_length_le (s : List Char) : (escapeSpec s).length ≤ 2 * s.length := by
  have h := List.count_le_length QUOTE s
  rw [escapeSpec_length]
  omega

theorem cstr_length_le_of_nul (buf : List Char) (k : Nat) (h : buf[k]? = some NUL) :
    (cstr buf).length ≤ k := by
  induction buf generalizing k with
  | nil => simp at h
  | cons c s ih =>
    by_cases hc : c = NUL
    · rw [hc, cstr_cons_nul]
      simp
    · cases k with
      | zero =>
        simp only [List.getElem?_cons_zero, Option.some.injEq] at h
        exact absurd h hc
      | succ k =>
        simp only [List.getElem?_cons_succ] at h
        rw [cstr_cons_ne _ _ hc, List.length_cons]
        have := ih k h
        omega

theorem cstr_length_lt_of_strnlen2_ne (buf : List Char) (n : Nat) (h : strnlen2 buf n ≠ n) :
    (cstr buf).length < n := by
  rw [Ne, strnlen2_eq_iff] at h
  push_neg at h
  obtain ⟨k, hk, hn⟩ := h
  have := cstr_length_le_of_nul buf k hn
  omega

theorem escapeSpec_ne_quote_cons (s rest : List Char) : escapeSpec s ≠ QUOTE :: rest := by
  cases s with
  | nil => simp [escapeSpec]
  | cons c s =>
    rw [escapeSpec_cons]
    by_cases hq : c = QUOTE
    · simp only [hq, if_true, List.cons_append, List.nil_append]
      intro h
      have := (List.cons.inj h).1
      exact absurd this (by decide)
    · simp only [hq, if_false, List.cons_append, List.nil_append]
      intro h
      exact hq (List.cons.inj h).1

theorem escapeSpec_injective (s u : List Char) (h : escapeSpec s = escapeSpec u) : s = u := by
  induction s generalizing u with
  | nil =>
    cases u with
    | nil => rfl
    | cons d u =>
      rw [escapeSpec_cons] at h
      by_cases hq : d = QUOTE <;> simp [escapeSpec, hq] at h
  | cons c s ih =>
    cases u with
    | nil =>
      rw [escapeSpec_cons] at h
      by_cases hq : c = QUOTE <;> simp [escapeSpec, hq] at h
    | cons d u =>
      rw [escapeSpec_cons, escapeSpec_cons] at h
      by_cases hc : c = QUOTE
      · by_cases hd : d = QUOTE
        · simp only [hc, hd, if_true, List.cons_append, List.nil_append, List.cons.injEq,
            true_and] at h
          rw [hc, hd, ih u h]
        · simp only [hc, hd, if_true, if_false, List.cons_append, List.nil_append,
            List.cons.injEq] at h
          exact absurd h.2.symm (escapeSpec_ne_quote_cons u _)
      · by_cases hd : d = QUOTE
        · simp only [hc, hd, if_true, if_false, List.cons_append, List.nil_append,
            List.cons.injEq] at h
          exact absurd h.2 (escapeSpec_ne_quote_cons s _)
        · simp only [hc, hd, if_false, List.cons_append, List.nil_append, List.cons.injEq] at h
          rw [h.1, ih u h.2]

/-- C14: for a string `src` without terminator stored with its terminator,
the string `escapeQuotes` stores has the length of `src` plus the number of
single quotes of `src`, at most twice the length of `src`; for a marker whose
name and text pass the termination checks of `writePoint` the stored name and
text, terminators included, take at most 200 and 2000 bytes; and two strings
for which `escapeQuotes` stores the same bytes are equal. -/
theorem escapeQuotes_length_injective (src tail : List Char) (h : NUL ∉ src) :
    (∃ dest, escapeQuotes (src ++ NUL :: tail) = some (dest ++ [NUL]) ∧
      dest.length = src.length + src.count QUOTE ∧ dest.length ≤ 2 * src.length) ∧
    (∀ m : MapMarker, strnlen2 m.markerName 100 ≠ 100 → strnlen2 m.markerText 1000 ≠ 1000 →
      ∃ escapedName escapedText,
        escapeQuotes m.markerName = some escapedName ∧
        escapeQuotes m.markerText = some escapedText ∧
        escapedName.length ≤ 200 ∧ escapedText.length ≤ 2000) ∧
    (∀ src2 tail2 : List Char, NUL ∉ src2 →
      escapeQuotes (src ++ NUL :: tail) = escapeQuotes (src2 ++ NUL :: tail2) → src = src2) := by
  refine ⟨⟨escapeSpec src, escapeQuotes_append_nul src tail h, escapeSpec_length src,
    escapeSpec_length_le src⟩, ?_, ?_⟩
  · intro m hname htext
    refine ⟨_, _, escapeQuotes_of_mem _ (nul_mem_of_strnlen2_ne _ _ hname),
      escapeQuotes_of_mem _ (nul_mem_of_strnlen2_ne _ _ htext), ?_, ?_⟩
    · have h1 := cstr_length_lt_of_strnlen2_ne _ _ hname
      have h2 := escapeSpec_length_le (cstr m.markerName)
      rw [List.length_append, List.length_singleton]
      omega
    · have h1 := cstr_length_lt_of_strnlen2_ne _ _ htext
      have h2 := escapeSpec_length_le (cstr m.markerText)
      rw [List.length_append, List.length_singleton]
      omega
  · intro src2 tail2 h2 he
    rw [escapeQuotes_append_nul src tail h, escapeQuotes_append_nul src2 tail2 h2] at he
    have he' := List.append_cancel_right (Option.some.inj he)
    exact escapeSpec_injective src src2 he'

/-- Witness for C14: the name of station 115 has 22 characters and one single
quote, and is stored in 23 characters and a terminator. -/
theorem escapeQuotes_length_injective_witness :
    ∃ dest, escapeQuotes (cbuf "L'Ecole Victor Brodeur") = some (dest ++ [NUL]) ∧
      dest.length = "L'Ecole Victor Brodeur".toList.length +
        "L'Ecole Victor Brodeur".toList.count QUOTE ∧
      dest.length ≤ 2 * "L'Ecole Victor Brodeur".toList.length :=
  (escapeQuotes_length_injective "L'Ecole Victor Brodeur".toList [] (by decide)).1

end PlotPoints
